import Mathlib

/-!
Shallow embedding of `erpnext_integrations/connectors/shopify_connection.py`.

The connector receives Shopify order payloads and creates ERP documents
(Sales Order, Sales Invoice, Payment Entry, Delivery Note), logging the
outcome of each stage.  The database is modelled as explicit lists of
documents inside a `State`; every `frappe.db.get_value` call becomes a
`List.find?` over the corresponding list.  Functions that can raise return
`Except Err _` paired with the state at the point of the raise, so a caught
exception keeps the partial work of the failing stage, matching the
commit-per-stage behaviour of the source.  Framework entry points that are
imported by the connector but live outside this repository
(`create_customer`, `make_item`, `make_sales_invoice`, `make_sales_return`,
`make_delivery_note`, `get_payment_entry`) are modelled from the spec; an
`Oracle` of failure flags stands for the exceptions those framework calls
may raise.
-/

namespace Shopify

/-- Python `cstr`: `None` becomes the empty string, a string stays itself. -/
def cstr : Option String → String
  | none => ""
  | some s => s

/-- Python `flt` on an optional numeric payload field: a missing value is 0. -/
def flt : Option Rat → Rat
  | none => 0
  | some x => x

/-- Python truthiness of an optional string: `None` and `""` are falsy. -/
def truthyStr : Option String → Bool
  | none => false
  | some s => decide (s ≠ "")

/-- Python `a or b` on optional strings: the left operand wins when truthy. -/
def pyOr (a b : Option String) : Option String :=
  if truthyStr a then a else b

/-- Python `a or b` where the right operand is a plain (default) string. -/
def pyOrS (a : Option String) (b : String) : String :=
  if truthyStr a then cstr a else b

/-- Python `a or b` on lists: a nonempty list is truthy, so it wins. -/
def pyListOr {α : Type} (a b : List α) : List α :=
  if a.isEmpty then b else a

/-! ## Payload (Shopify order JSON) -/

structure CustomerPayload where
  id : Option String
deriving DecidableEq

structure LineItem where
  id : Option String
  variant_id : Option String
  product_id : Option String
  title : Option String
  name : Option String
  price : Rat
  quantity : Nat
  uom : Option String
deriving DecidableEq

structure DiscountCode where
  amount : Option Rat
deriving DecidableEq

structure OrderTaxLine where
  title : String
  rate : Rat
deriving DecidableEq

structure ShippingTaxLine where
  title : String
  price : Rat
deriving DecidableEq

structure ShippingLine where
  title : String
  price : Rat
  tax_lines : List ShippingTaxLine
deriving DecidableEq

structure Fulfillment where
  id : Option String
  order_id : Option String
  created_at : Option String
  line_items : List LineItem
deriving DecidableEq

structure Order where
  id : String
  name : Option String
  customer : Option CustomerPayload
  line_items : List LineItem
  discount_codes : List DiscountCode
  tax_lines : List OrderTaxLine
  shipping_lines : List ShippingLine
  fulfillments : List Fulfillment
  financial_status : Option String
  taxes_included : Bool
  created_at : Option String
deriving DecidableEq

/-! ## Internal documents and master data -/

structure Customer where
  name : String
  shopify_customer_id : String
deriving DecidableEq

structure Item where
  item_code : String
  item_name : String
  shopify_variant_id : Option String
  shopify_product_id : Option String
deriving DecidableEq

inductive ChargeType
  | onNetTotal
  | actual
deriving DecidableEq

structure ChargeLine where
  charge_type : ChargeType
  account_head : String
  description : String
  rate : Option Rat
  tax_amount : Option Rat
  included_in_print_rate : Option Nat
  cost_center : String
deriving DecidableEq

structure SOItem where
  item_code : Option String
  item_name : Option String
  rate : Rat
  qty : Nat
  stock_uom : String
  warehouse : String
  cost_center : Option String
deriving DecidableEq

structure SalesOrder where
  name : String
  shopify_order_id : String
  customer : String
  docstatus : Nat
  per_billed : Bool
  items : List SOItem
  taxes : List ChargeLine
  discount_amount : Rat
deriving DecidableEq

structure SalesInvoice where
  name : String
  shopify_order_id : Option String
  shopify_order_number : Option String
  posting_date : String
  docstatus : Nat
  is_return : Bool
  return_against : Option String
  items : List SOItem
deriving DecidableEq

structure DNItem where
  item_code : String
  qty : Nat
  allow_zero_valuation_rate : Nat
deriving DecidableEq

structure DeliveryNote where
  name : String
  shopify_order_id : Option String
  shopify_order_number : Option String
  shopify_fulfillment_id : Option String
  posting_date : String
  docstatus : Nat
  items : List DNItem
deriving DecidableEq

structure PaymentEntry where
  name : String
  reference_no : String
  docstatus : Nat
deriving DecidableEq

/-- A row of the "Shopify Tax Account" child table of Shopify Settings. -/
structure TaxTableRow where
  shopify_tax : String
  tax_account : String
deriving DecidableEq

structure ShopifySettings where
  default_customer : String
  company : String
  price_list : String
  warehouse : String
  cost_center : String
  cash_bank_account : String
  sync_sales_invoice : Bool
  sync_delivery_note : Bool
  tax_table : List TaxTableRow
deriving DecidableEq

inductive LogStatus
  | success
  | error
deriving DecidableEq

/-- An exception raised while processing an order.  `framework site` stands
for an exception raised inside a framework call at the named call site. -/
inductive Err
  | taxAccount (title : String)
  | missingItemCode
  | framework (site : String)
deriving DecidableEq

structure LogEntry where
  status : LogStatus
  order_id : String
  exc : Option Err
deriving DecidableEq

/-- Failure flags standing for the exceptions the framework calls may raise;
a flag set to `true` means the corresponding call raises. -/
structure Oracle where
  create_customer_fails : Bool
  make_item_fails : Bool
  so_save_fails : Bool
  si_insert_fails : Bool
  payment_entry_fails : Bool
  sales_return_fails : Bool
  dn_save_fails : Bool
  cancel_dn_fails : Bool
  cancel_si_fails : Bool
  cancel_so_fails : Bool
deriving DecidableEq

/-- The database plus framework-failure oracle.  `seq` drives document
naming (the naming-series counter of the host framework). -/
structure State where
  settings : ShopifySettings
  oracle : Oracle
  customers : List Customer
  items : List Item
  sales_orders : List SalesOrder
  sales_invoices : List SalesInvoice
  delivery_notes : List DeliveryNote
  payment_entries : List PaymentEntry
  logs : List LogEntry
  seq : Nat
deriving DecidableEq

def mkErrLog (order : Order) (e : Err) : LogEntry :=
  { status := LogStatus.error, order_id := order.id, exc := some e }

def mkSuccessLog (order : Order) : LogEntry :=
  { status := LogStatus.success, order_id := order.id, exc := none }

/-- `make_shopify_log`: append a log record for this processing attempt. -/
def pushLog (st : State) (l : LogEntry) : State :=
  { st with logs := st.logs ++ [l] }

/-! ## Database lookups (`frappe.db.get_value` / `frappe.db.exists`) -/

/-- The filter of lines 51-55 and 173: a not-cancelled Sales Order carrying
this external order id. -/
def soKey (oid : String) (d : SalesOrder) : Bool :=
  decide (d.docstatus < 2) && decide (d.shopify_order_id = oid)

/-- `frappe.db.get_value("Sales Order", docstatus < 2, shopify_order_id)`. -/
def dbOpenSO (st : State) (oid : String) : Option SalesOrder :=
  st.sales_orders.find? (soKey oid)

/-- `frappe.get_doc("Sales Order", name)`. -/
def getDocSO (st : State) (name : String) : Option SalesOrder :=
  st.sales_orders.find? (fun d => decide (d.name = name))

def siKey (oid : String) (d : SalesInvoice) : Bool :=
  decide (d.shopify_order_id = some oid)

/-- `frappe.db.get_value("Sales Invoice", shopify_order_id = oid)`. -/
def dbSIByOrderId (l : List SalesInvoice) (oid : String) : Option SalesInvoice :=
  l.find? (siKey oid)

def dnKey (fid : String) (d : DeliveryNote) : Bool :=
  decide (d.shopify_fulfillment_id = some fid)

/-- `frappe.db.get_value("Delivery Note", shopify_fulfillment_id = q)`.
A missing fulfillment id (`None` filter value) matches no row. -/
def dbDNByFulfillment (l : List DeliveryNote) (q : Option String) : Option DeliveryNote :=
  match q with
  | none => none
  | some fid => l.find? (dnKey fid)

def dbCustomerByShopifyId (cs : List Customer) (q : Option String) : Option String :=
  match q with
  | none => none
  | some cid => (cs.find? (fun c => decide (c.shopify_customer_id = cid))).map (fun c => c.name)

def dbItemExistsByProduct (items : List Item) (pid : String) : Bool :=
  (items.find? (fun it => decide (it.shopify_product_id = some pid))).isSome

def dbItemByVariant (items : List Item) (q : Option String) : Option String :=
  match q with
  | none => none
  | some v => (items.find? (fun it => decide (it.shopify_variant_id = some v))).map (fun it => it.item_code)

def dbItemByProduct (items : List Item) (q : Option String) : Option String :=
  match q with
  | none => none
  | some pid => (items.find? (fun it => decide (it.shopify_product_id = some pid))).map (fun it => it.item_code)

def dbItemByName (items : List Item) (q : Option String) : Option String :=
  match q with
  | none => none
  | some t => (items.find? (fun it => decide (it.item_name = t))).map (fun it => it.item_code)

/-! ## Item and tax resolution -/

/-- `get_item_code` (lines 297-305): variant-id mapping, then product-id
mapping (product id falling back to the line-item id by Python `or`), then
exact name match against the line item's title. -/
def get_item_code (items : List Item) (li : LineItem) : Option String :=
  let c1 := dbItemByVariant items li.variant_id
  let c2 := if truthyStr c1 then c1 else dbItemByProduct items (pyOr li.product_id li.id)
  if truthyStr c2 then c2 else dbItemByName items li.title

/-- `get_tax_account_head` (lines 342-350): look the external tax title up
in the Shopify Tax Account table; `if not tax_account: frappe.throw(...)`,
so both a missing row and an empty configured account raise. -/
def get_tax_account_head (table : List TaxTableRow) (title : String) : Except Err String :=
  let tax_account := (table.find? (fun r => decide (r.shopify_tax = title))).map
    (fun r => r.tax_account)
  match tax_account with
  | none => Except.error (Err.taxAccount title)
  | some acc => if acc = "" then Except.error (Err.taxAccount title) else Except.ok acc

/-- One percentage charge line built from an order-level tax line
(lines 311-318).  The float formatting of the description is modelled with
`toString` on the rational rate. -/
def orderTaxChargeLine (order : Order) (settings : ShopifySettings) (t : OrderTaxLine) :
    Except Err ChargeLine := do
  let head ← get_tax_account_head settings.tax_table t.title
  pure { charge_type := ChargeType.onNetTotal
         account_head := head
         description := t.title ++ " - " ++ toString (t.rate * 100) ++ "%"
         rate := some (t.rate * 100)
         tax_amount := none
         included_in_print_rate := some (if order.taxes_included then 1 else 0)
         cost_center := settings.cost_center }

/-- A shipping charge / shipping tax line viewed as the dict the inner loop
of `update_taxes_with_shipping_lines` reads (`tax["title"]`, `tax["price"]`). -/
def shippingChargeAsTaxLine (c : ShippingLine) : ShippingTaxLine :=
  { title := c.title, price := c.price }

/-- One actual-amount charge line appended by the inner loop (lines 330-337). -/
def shippingChargeLine (settings : ShopifySettings) (t : ShippingTaxLine) :
    Except Err ChargeLine := do
  let head ← get_tax_account_head settings.tax_table t.title
  pure { charge_type := ChargeType.actual
         account_head := head
         description := t.title
         rate := none
         tax_amount := some t.price
         included_in_print_rate := none
         cost_center := settings.cost_center }

/-- `update_taxes_with_shipping_lines` (lines 325-339).  The source computes
`shipping_tax_lines = [shipping_charge] or shipping_charge.get('tax_lines')`;
`pyListOr` keeps the Python operator structure, so the left, always-truthy
singleton wins exactly as in the source. -/
def update_taxes_with_shipping_lines (taxes : List ChargeLine)
    (shipping_lines : List ShippingLine) (settings : ShopifySettings) :
    Except Err (List ChargeLine) :=
  shipping_lines.foldlM (fun acc shipping_charge => do
    let shipping_tax_lines :=
      pyListOr [shippingChargeAsTaxLine shipping_charge] shipping_charge.tax_lines
    shipping_tax_lines.foldlM (fun acc2 t => do
      let c ← shippingChargeLine settings t
      pure (acc2 ++ [c])) acc) taxes

/-- `get_order_taxes` (lines 308-322). -/
def get_order_taxes (order : Order) (settings : ShopifySettings) :
    Except Err (List ChargeLine) := do
  let base ← order.tax_lines.foldlM (fun acc t => do
    let c ← orderTaxChargeLine order settings t
    pure (acc ++ [c])) ([] : List ChargeLine)
  update_taxes_with_shipping_lines base order.shipping_lines settings

/-- `get_discounted_amount` (lines 277-278). -/
def get_discounted_amount (order : Order) : Rat :=
  (order.discount_codes.map (fun d => flt d.amount)).sum

/-- `get_order_items` (lines 281-294). -/
def get_order_items (items : List Item) (order_items : List LineItem)
    (settings : ShopifySettings) : List SOItem :=
  order_items.map (fun li =>
    { item_code := get_item_code items li
      item_name := li.name
      rate := li.price
      qty := li.quantity
      stock_uom := pyOrS li.uom "Nos"
      warehouse := settings.warehouse
      cost_center := none })

/-! ## Master-data validation (with framework calls modelled from the spec) -/

/-- Modelled from the spec: `create_customer`
(`shopify_settings/sync_customer.py`, not under src/) creates a Customer
master mapped to the external customer id; the framework call may raise. -/
def create_customer (cid : String) (st : State) : Except Err Unit × State :=
  if st.oracle.create_customer_fails then
    (Except.error (Err.framework "create_customer"), st)
  else
    (Except.ok (),
      { st with
        customers := st.customers ++
          [{ name := "CUST-" ++ toString st.seq, shopify_customer_id := cid }]
        seq := st.seq + 1 })

/-- `validate_customer` (lines 157-161). -/
def validate_customer (order : Order) (st : State) : Except Err Unit × State :=
  let customer_id := (order.customer.map (fun c => c.id)).join
  if truthyStr customer_id then
    if (st.customers.find? (fun c =>
        decide (some c.shopify_customer_id = customer_id))).isSome then
      (Except.ok (), st)
    else
      create_customer (cstr customer_id) st
  else
    (Except.ok (), st)

/-- Modelled from the spec: `make_item`
(`shopify_settings/sync_product.py`, not under src/) lazily creates an Item
master keyed by the external product id; the framework call may raise. -/
def make_item (pid : String) (li : LineItem) (st : State) : Except Err Unit × State :=
  if st.oracle.make_item_fails then
    (Except.error (Err.framework "make_item"), st)
  else
    (Except.ok (),
      { st with
        items := st.items ++
          [{ item_code := "ITEM-" ++ toString st.seq
             item_name := cstr li.title
             shopify_variant_id := li.variant_id
             shopify_product_id := some pid }]
        seq := st.seq + 1 })

/-- The loop body of `validate_item` (lines 164-168). -/
def validate_item_loop (st : State) : List LineItem → Except Err Unit × State
  | [] => (Except.ok (), st)
  | li :: rest =>
    let product_id := pyOr li.product_id li.id
    if truthyStr product_id && !(dbItemExistsByProduct st.items (cstr product_id)) then
      match make_item (cstr product_id) li st with
      | (Except.ok _, st') => validate_item_loop st' rest
      | (Except.error e, st') => (Except.error e, st')
    else
      validate_item_loop st rest

/-- `validate_item` (lines 164-168). -/
def validate_item (order : Order) (st : State) : Except Err Unit × State :=
  validate_item_loop st order.line_items

/-! ## Sales Order creation -/

/-- `create_sales_order` (lines 171-206).  Saving the document is where the
host framework validates it; modelled from the spec, a line item whose item
code is still unresolved aborts the save (the spec: "a missing item aborts
order creation with an error"), and the oracle stands for any other
save/submit failure.  On success the order is submitted (`docstatus = 1`). -/
def create_sales_order (order : Order) (st : State) : Except Err SalesOrder × State :=
  let settings := st.settings
  let customer := dbCustomerByShopifyId st.customers ((order.customer.map (fun c => c.id)).join)
  match dbOpenSO st order.id with
  | some d => (Except.ok d, st)
  | none =>
    let items := get_order_items st.items order.line_items settings
    match get_order_taxes order settings with
    | Except.error e => (Except.error e, st)
    | Except.ok taxes =>
      if items.any (fun it => !(truthyStr it.item_code)) then
        (Except.error Err.missingItemCode, st)
      else if st.oracle.so_save_fails then
        (Except.error (Err.framework "so_save"), st)
      else
        let so : SalesOrder :=
          { name := "SO-" ++ toString st.seq
            shopify_order_id := order.id
            customer := pyOrS customer settings.default_customer
            docstatus := 1
            per_billed := false
            items := items
            taxes := taxes
            discount_amount := get_discounted_amount order }
        (Except.ok so,
          { st with sales_orders := st.sales_orders ++ [so], seq := st.seq + 1 })

/-- The body of the `try` block of `create_shopify_order` (lines 60-63). -/
def shopify_order_core (order : Order) (st : State) : Except Err SalesOrder × State :=
  match validate_customer order st with
  | (Except.error e, st1) => (Except.error e, st1)
  | (Except.ok _, st1) =>
    match validate_item order st1 with
    | (Except.error e, st2) => (Except.error e, st2)
    | (Except.ok _, st2) => create_sales_order order st2

/-- `create_shopify_order` (lines 47-68): reuse an existing not-cancelled
Sales Order for this external order id, else run the creation chain, logging
Success or Error. -/
def create_shopify_order (order : Order) (st : State) : Option SalesOrder × State :=
  match dbOpenSO st (cstr (some order.id)) with
  | some d => (getDocSO st d.name, st)
  | none =>
    match shopify_order_core order st with
    | (Except.error e, st') => (none, pushLog st' (mkErrLog order e))
    | (Except.ok so, st') => (some so, pushLog st' (mkSuccessLog order))

/-! ## Sales Invoice, Payment Entry, return invoice -/

/-- Modelled from the spec: `get_payment_entry`
(`payment_entry.py`, not under src/) builds a Payment Entry against the
invoice; the connector sets `reference_no` to the invoice name, inserts and
submits it (lines 233-240). -/
def make_payment_entry_against_sales_invoice (si_name : String) (st : State) :
    Except Err Unit × State :=
  if st.oracle.payment_entry_fails then
    (Except.error (Err.framework "payment_entry"), st)
  else
    (Except.ok (),
      { st with
        payment_entries := st.payment_entries ++
          [{ name := "PE-" ++ toString st.seq, reference_no := si_name, docstatus := 1 }]
        seq := st.seq + 1 })

/-- `set_cost_center` (lines 228-230). -/
def set_cost_center (items : List SOItem) (cost_center : String) : List SOItem :=
  items.map (fun it => { it with cost_center := some cost_center })

/-- `create_sales_invoice` (lines 209-225).  `make_sales_invoice` is
modelled from the spec as mapping the Sales Order onto a billing document;
the connector then sets the external keys, inserts, submits, and creates
the Payment Entry before committing. -/
def create_sales_invoice (order : Order) (so : SalesOrder) (st : State) :
    Except Err (Option String) × State :=
  let settings := st.settings
  if (dbSIByOrderId st.sales_invoices order.id).isNone
      && decide (so.docstatus = 1) && !so.per_billed && settings.sync_sales_invoice then
    if st.oracle.si_insert_fails then
      (Except.error (Err.framework "si_insert"), st)
    else
      let si : SalesInvoice :=
        { name := "SI-" ++ toString st.seq
          shopify_order_id := some order.id
          shopify_order_number := order.name
          posting_date := cstr order.created_at
          docstatus := 1
          is_return := false
          return_against := none
          items := set_cost_center so.items settings.cost_center }
      let st1 := { st with sales_invoices := st.sales_invoices ++ [si], seq := st.seq + 1 }
      match make_payment_entry_against_sales_invoice si.name st1 with
      | (Except.error e, st2) => (Except.error e, st2)
      | (Except.ok _, st2) => (Except.ok (some si.name), st2)
  else
    (Except.ok none, st)

/-- Modelled from the spec: `make_sales_return`
(`sales_invoice.py`, not under src/) creates a return invoice referencing
the given Sales Invoice; the connector saves and submits it (lines 82-84).
The spec's data model keys at most one Sales Invoice per external order id,
so the return document carries no external order id of its own. -/
def make_sales_return_save_submit (si_name : String) (st : State) :
    Except Err Unit × State :=
  if st.oracle.sales_return_fails then
    (Except.error (Err.framework "sales_return"), st)
  else
    (Except.ok (),
      { st with
        sales_invoices := st.sales_invoices ++
          [{ name := "SR-" ++ toString st.seq
             shopify_order_id := none
             shopify_order_number := none
             posting_date := ""
             docstatus := 1
             is_return := true
             return_against := some si_name
             items := [] }]
        seq := st.seq + 1 })

/-- The body of the `try` block of `create_shopify_invoice` (lines 78-84). -/
def shopify_invoice_core (order : Order) (so : SalesOrder) (st : State) :
    Except Err (Option String) × State :=
  match create_sales_invoice order so st with
  | (Except.error e, st1) => (Except.error e, st1)
  | (Except.ok si?, st1) =>
    match si? with
    | some siName =>
      if cstr order.financial_status = "refunded" then
        match make_sales_return_save_submit siName st1 with
        | (Except.error e, st2) => (Except.error e, st2)
        | (Except.ok _, st2) => (Except.ok (some siName), st2)
      else
        (Except.ok (some siName), st1)
    | none => (Except.ok none, st1)

/-- `create_shopify_invoice` (lines 71-88). -/
def create_shopify_invoice (order : Order) (so : SalesOrder) (st : State) :
    Option String × State :=
  if !(decide (cstr order.financial_status = "paid")
      || decide (cstr order.financial_status = "refunded")) then
    (none, st)
  else
    match shopify_invoice_core order so st with
    | (Except.error e, st') => (none, pushLog st' (mkErrLog order e))
    | (Except.ok si?, st') => (si?, st')

/-! ## Delivery Note creation -/

/-- Modelled from the spec: `make_delivery_note`
(`sales_order.py`, not under src/) maps the Sales Order's items onto a
draft Delivery Note. -/
def make_dn_items (so : SalesOrder) : List DNItem :=
  so.items.filterMap (fun it =>
    it.item_code.map (fun c =>
      { item_code := c, qty := it.qty, allow_zero_valuation_rate := 0 }))

/-- `get_fulfillment_items` (lines 269-274): the nested list comprehension,
outer loop over fulfillment line items, inner loop over the mapped Delivery
Note items, keeping matches on the resolved item code. -/
def get_fulfillment_items (masterItems : List Item) (dn_items : List DNItem)
    (fulfillment_items : List LineItem) : List DNItem :=
  (fulfillment_items.map (fun item =>
    dn_items.filterMap (fun dn_item =>
      if get_item_code masterItems item = some dn_item.item_code then
        some { dn_item with qty := item.quantity, allow_zero_valuation_rate := 1 }
      else
        none))).flatten

/-- The loop of `create_delivery_note` (lines 248-264). -/
def create_delivery_note_loop (order : Order) (so : SalesOrder) (acc : List String)
    (st : State) : List Fulfillment → Except Err (List String) × State
  | [] => (Except.ok acc, st)
  | f :: rest =>
    if (dbDNByFulfillment st.delivery_notes f.id).isNone && decide (so.docstatus = 1) then
      if st.oracle.dn_save_fails then
        (Except.error (Err.framework "dn_save"), st)
      else
        let dn : DeliveryNote :=
          { name := "DN-" ++ toString st.seq
            shopify_order_id := f.order_id
            shopify_order_number := order.name
            shopify_fulfillment_id := f.id
            posting_date := cstr f.created_at
            docstatus := 1
            items := get_fulfillment_items st.items (make_dn_items so) f.line_items }
        create_delivery_note_loop order so (acc ++ [dn.name])
          { st with delivery_notes := st.delivery_notes ++ [dn], seq := st.seq + 1 } rest
    else
      create_delivery_note_loop order so acc st rest

/-- `create_delivery_note` (lines 243-266). -/
def create_delivery_note (order : Order) (so : SalesOrder) (st : State) :
    Except Err (Option (List String)) × State :=
  if !st.settings.sync_delivery_note then
    (Except.ok none, st)
  else
    match create_delivery_note_loop order so [] st order.fulfillments with
    | (Except.error e, st') => (Except.error e, st')
    | (Except.ok dns, st') => (Except.ok (some dns), st')

/-- `create_shopify_delivery` (lines 91-104). -/
def create_shopify_delivery (order : Order) (so : SalesOrder) (st : State) :
    Option (List String) × State :=
  if order.fulfillments.isEmpty then
    (none, st)
  else
    match create_delivery_note order so st with
    | (Except.error e, st') => (none, pushLog st' (mkErrLog order e))
    | (Except.ok dns, st') => (dns, st')

/-! ## Orchestrator and cancellation -/

/-- `sync_sales_order` (lines 24-44). -/
def sync_sales_order (order : Order) (st : State) : State :=
  match create_shopify_order order st with
  | (some so, st1) =>
    let (_, st2) := create_shopify_invoice order so st1
    let (_, st3) := create_shopify_delivery order so st2
    st3
  | (none, st1) => st1

/-- One iteration of the doctype loop of `cancel_shopify_order`
(lines 140-147): find the submitted document of this doctype keyed by the
external order id and cancel it, logging (and swallowing) any failure. -/
def cancel_step (order : Order) (st : State) (doctype : String) : State :=
  if doctype = "Delivery Note" then
    match st.delivery_notes.find? (fun d =>
        decide (d.docstatus = 1) && decide (d.shopify_order_id = some (cstr (some order.id)))) with
    | none => st
    | some d =>
      if st.oracle.cancel_dn_fails then
        pushLog st (mkErrLog order (Err.framework "cancel"))
      else
        { st with
          delivery_notes := st.delivery_notes.map (fun x =>
            if x.name = d.name then { x with docstatus := 2 } else x) }
  else if doctype = "Sales Invoice" then
    match st.sales_invoices.find? (fun d =>
        decide (d.docstatus = 1) && decide (d.shopify_order_id = some (cstr (some order.id)))) with
    | none => st
    | some d =>
      if st.oracle.cancel_si_fails then
        pushLog st (mkErrLog order (Err.framework "cancel"))
      else
        { st with
          sales_invoices := st.sales_invoices.map (fun x =>
            if x.name = d.name then { x with docstatus := 2 } else x) }
  else if doctype = "Sales Order" then
    match st.sales_orders.find? (fun d =>
        decide (d.docstatus = 1) && decide (d.shopify_order_id = cstr (some order.id))) with
    | none => st
    | some d =>
      if st.oracle.cancel_so_fails then
        pushLog st (mkErrLog order (Err.framework "cancel"))
      else
        { st with
          sales_orders := st.sales_orders.map (fun x =>
            if x.name = d.name then { x with docstatus := 2 } else x) }
  else
    st

/-- `cancel_shopify_order` (lines 135-147). -/
def cancel_shopify_order (order : Order) (st : State) : State :=
  (["Delivery Note", "Sales Invoice", "Sales Order"]).foldl (cancel_step order) st

/-! ## Counting documents per external key -/

/-- Not-cancelled Sales Orders carrying this external order id. -/
def soCount (st : State) (oid : String) : Nat :=
  st.sales_orders.countP (soKey oid)

/-- Sales Invoices carrying this external order id. -/
def siCount (st : State) (oid : String) : Nat :=
  st.sales_invoices.countP (siKey oid)

/-- Delivery Notes carrying this external fulfillment id. -/
def dnCount (st : State) (fid : String) : Nat :=
  st.delivery_notes.countP (dnKey fid)

/-- Error log records. -/
def errCount (st : State) : Nat :=
  st.logs.countP (fun l => decide (l.status = LogStatus.error))

/-! ## Concrete example data (used by closed theorems) -/

def exSettings : ShopifySettings :=
  { default_customer := "Default Customer", company := "C", price_list := "PL",
    warehouse := "WH", cost_center := "CC", cash_bank_account := "Bank",
    sync_sales_invoice := true, sync_delivery_note := true,
    tax_table := [⟨"GST", "GST Acct"⟩, ⟨"Shipping", "Ship Acct"⟩, ⟨"VAT", "VAT Acct"⟩] }

/-- The same settings with the Sales Invoice sync toggle switched off. -/
def exSettingsNoSI : ShopifySettings :=
  { exSettings with sync_sales_invoice := false }

def okOracle : Oracle :=
  ⟨false, false, false, false, false, false, false, false, false, false⟩

def siFailOracle : Oracle :=
  { okOracle with si_insert_fails := true }

def cancelSIFailOracle : Oracle :=
  { okOracle with cancel_si_fails := true }

def exItem : Item :=
  ⟨"IC1", "Widget", some "v1", some "p1"⟩

def exLineItem : LineItem :=
  ⟨some "l1", some "v1", some "p1", some "Widget", some "Widget", 5, 2, none⟩

/-- A line item carrying no variant id, product id, line id or title: no
mapping can resolve it and `validate_item` cannot create a master for it. -/
def badLineItem : LineItem :=
  ⟨none, none, none, none, some "Mystery", 1, 1, none⟩

def exState0 : State :=
  ⟨exSettings, okOracle, [], [exItem], [], [], [], [], [], 0⟩

def exStateNoSI : State :=
  ⟨exSettingsNoSI, okOracle, [], [exItem], [], [], [], [], [], 0⟩

def exOrderPaid : Order :=
  ⟨"1001", some "#1001", some ⟨some "c9"⟩, [exLineItem],
    [⟨some 3⟩, ⟨none⟩, ⟨some 4⟩], [], [], [], some "paid", false, some "2016-01-01"⟩

def exOrderRefunded : Order :=
  { exOrderPaid with id := "1002", financial_status := some "refunded" }

def exOrderBadItem : Order :=
  { exOrderPaid with id := "1004", line_items := [badLineItem] }

def exSOSubmitted : SalesOrder :=
  ⟨"SO-A", "1002", "Cust", 1, false,
    [⟨some "IC1", some "Widget", 5, 2, "Nos", "WH", none⟩], [], 0⟩

/-- A store holding only a submitted Sales Order for external order 1002,
with invoice sync disabled. -/
def exStateSOOnly : State :=
  ⟨exSettingsNoSI, okOracle, [], [exItem], [exSOSubmitted], [], [], [], [], 5⟩

/-- Like `exStateSOOnly` but with invoice sync enabled. -/
def exStateSOReady : State :=
  ⟨exSettings, okOracle, [], [exItem], [exSOSubmitted], [], [], [], [], 5⟩

def exSOPaid : SalesOrder :=
  ⟨"SO-C", "1001", "Cust", 1, false, [], [], 0⟩

/-- A store where inserting the Sales Invoice raises inside the framework. -/
def exStateSIFail : State :=
  ⟨exSettings, siFailOracle, [], [exItem], [exSOPaid], [], [], [], [], 3⟩

def exDN : DeliveryNote :=
  ⟨"DN-A", some "1003", some "#1003", some "f1", "", 1, []⟩

def exSI : SalesInvoice :=
  ⟨"SI-A", some "1003", some "#1003", "", 1, false, none, []⟩

def exSOCancel : SalesOrder :=
  ⟨"SO-B", "1003", "Cust", 1, false, [], [], 0⟩

def exOrderCancel : Order :=
  { exOrderPaid with id := "1003" }

/-- A store with a submitted Delivery Note, Sales Invoice and Sales Order
for external order 1003, where cancelling the Sales Invoice raises. -/
def exStateCancel : State :=
  ⟨exSettings, cancelSIFailOracle, [], [], [exSOCancel], [exSI], [exDN], [], [], 9⟩

/-- A shipping charge carrying one nested tax line. -/
def exShippingLine : ShippingLine :=
  { title := "Shipping", price := 10, tax_lines := [{ title := "VAT", price := 2 }] }

def exFulfillment : Fulfillment :=
  ⟨some "f1", some "1005", some "2016-01-02", [exLineItem]⟩

def exOrderFulfilled : Order :=
  { exOrderPaid with id := "1005", fulfillments := [exFulfillment] }

/-! ## List utilities -/

theorem countP_eq_zero_of_find?_none {α : Type} (l : List α) (p : α → Bool)
    (h : l.find? p = none) : l.countP p = 0 := by
  rw [List.countP_eq_zero]
  intro a ha
  exact List.find?_eq_none.mp h a ha

theorem find?_append_of_some {α : Type} {l l' : List α} {p : α → Bool} {x : α}
    (h : l.find? p = some x) : (l ++ l').find? p = some x := by
  induction l with
  | nil => simp at h
  | cons a as ih =>
    rcases hpa : p a with hf | ht
    · rw [List.find?_cons_of_neg _ (by simp [hpa])] at h
      rw [List.cons_append, List.find?_cons_of_neg _ (by simp [hpa])]
      exact ih h
    · rw [List.find?_cons_of_pos _ hpa] at h
      rw [List.cons_append, List.find?_cons_of_pos _ hpa]
      exact h

/-! ## Frame lemmas: which parts of the state each operation can touch -/

theorem create_customer_frame (cid : String) (st : State) :
    ((create_customer cid st).2).settings = st.settings ∧
    ((create_customer cid st).2).oracle = st.oracle ∧
    ((create_customer cid st).2).items = st.items ∧
    ((create_customer cid st).2).sales_orders = st.sales_orders ∧
    ((create_customer cid st).2).sales_invoices = st.sales_invoices ∧
    ((create_customer cid st).2).delivery_notes = st.delivery_notes ∧
    ((create_customer cid st).2).payment_entries = st.payment_entries ∧
    ((create_customer cid st).2).logs = st.logs := by
  unfold create_customer
  split <;> simp

theorem validate_customer_frame (order : Order) (st : State) :
    ((validate_customer order st).2).settings = st.settings ∧
    ((validate_customer order st).2).oracle = st.oracle ∧
    ((validate_customer order st).2).items = st.items ∧
    ((validate_customer order st).2).sales_orders = st.sales_orders ∧
    ((validate_customer order st).2).sales_invoices = st.sales_invoices ∧
    ((validate_customer order st).2).delivery_notes = st.delivery_notes ∧
    ((validate_customer order st).2).payment_entries = st.payment_entries ∧
    ((validate_customer order st).2).logs = st.logs := by
  simp only [validate_customer]
  split
  · split
    · simp
    · exact create_customer_frame _ _
  · simp

theorem validate_customer_ok (order : Order) (st : State)
    (h : st.oracle.create_customer_fails = false) :
    (validate_customer order st).1 = Except.ok () := by
  simp only [validate_customer, create_customer]
  split
  · split
    · simp
    · simp [h]
  · simp

theorem make_item_frame (pid : String) (li : LineItem) (st : State) :
    ((make_item pid li st).2).settings = st.settings ∧
    ((make_item pid li st).2).oracle = st.oracle ∧
    ((make_item pid li st).2).customers = st.customers ∧
    ((make_item pid li st).2).sales_orders = st.sales_orders ∧
    ((make_item pid li st).2).sales_invoices = st.sales_invoices ∧
    ((make_item pid li st).2).delivery_notes = st.delivery_notes ∧
    ((make_item pid li st).2).payment_entries = st.payment_entries ∧
    ((make_item pid li st).2).logs = st.logs ∧
    (∃ ex, ((make_item pid li st).2).items = st.items ++ ex) := by
  unfold make_item
  split
  · simp
  · refine ⟨rfl, rfl, rfl, rfl, rfl, rfl, rfl, rfl, ?_⟩
    exact ⟨_, rfl⟩

theorem validate_item_loop_frame (fs : List LineItem) : ∀ st : State,
    ((validate_item_loop st fs).2).settings = st.settings ∧
    ((validate_item_loop st fs).2).oracle = st.oracle ∧
    ((validate_item_loop st fs).2).sales_orders = st.sales_orders ∧
    ((validate_item_loop st fs).2).sales_invoices = st.sales_invoices ∧
    ((validate_item_loop st fs).2).delivery_notes = st.delivery_notes ∧
    ((validate_item_loop st fs).2).payment_entries = st.payment_entries ∧
    ((validate_item_loop st fs).2).logs = st.logs ∧
    (∃ ex, ((validate_item_loop st fs).2).items = st.items ++ ex) := by
  induction fs with
  | nil => intro st; simp [validate_item_loop]
  | cons li rest ih =>
    intro st
    rw [validate_item_loop]
    split
    · rcases hmk : make_item (cstr (pyOr li.product_id li.id)) li st with ⟨r, st'⟩
      have hframe := make_item_frame (cstr (pyOr li.product_id li.id)) li st
      rw [hmk] at hframe
      obtain ⟨h1, h2, h3, h4, h5, h6, h7, h8, ex, hex⟩ := hframe
      cases r with
      | error e => simp_all
      | ok _ =>
        have hr := ih st'
        obtain ⟨g1, g2, g3, g4, g5, g6, g7, ex2, hex2⟩ := hr
        refine ⟨by rw [g1, h1], by rw [g2, h2], by rw [g3, h4], by rw [g4, h5],
          by rw [g5, h6], by rw [g6, h7], by rw [g7, h8], ⟨ex ++ ex2, ?_⟩⟩
        rw [hex2, hex, List.append_assoc]
    · exact ih st

theorem validate_item_loop_ok (fs : List LineItem) : ∀ st : State,
    st.oracle.make_item_fails = false →
    (validate_item_loop st fs).1 = Except.ok () := by
  induction fs with
  | nil => intro st _; simp [validate_item_loop]
  | cons li rest ih =>
    intro st h
    rw [validate_item_loop]
    split
    · rcases hmk : make_item (cstr (pyOr li.product_id li.id)) li st with ⟨r, st'⟩
      have hframe := make_item_frame (cstr (pyOr li.product_id li.id)) li st
      rw [hmk] at hframe
      cases r with
      | error e =>
        exfalso
        unfold make_item at hmk
        rw [if_neg (by simp [h])] at hmk
        simp at hmk
      | ok _ =>
        have : st'.oracle.make_item_fails = false := by rw [hframe.2.1, h]
        exact ih st' this
    · exact ih st h

theorem get_order_items_all_truthy (items : List Item) (lis : List LineItem)
    (settings : ShopifySettings)
    (h : ∀ li ∈ lis, truthyStr (get_item_code items li) = true) :
    (get_order_items items lis settings).any (fun it => !truthyStr it.item_code) = false := by
  rw [List.any_eq_false]
  intro it hit
  rw [get_order_items, List.mem_map] at hit
  obtain ⟨li, hli, rfl⟩ := hit
  simp [h li hli]

theorem create_sales_order_frame (order : Order) (st : State) :
    ((create_sales_order order st).2).settings = st.settings ∧
    ((create_sales_order order st).2).oracle = st.oracle ∧
    ((create_sales_order order st).2).customers = st.customers ∧
    ((create_sales_order order st).2).items = st.items ∧
    ((create_sales_order order st).2).sales_invoices = st.sales_invoices ∧
    ((create_sales_order order st).2).delivery_notes = st.delivery_notes ∧
    ((create_sales_order order st).2).payment_entries = st.payment_entries ∧
    ((create_sales_order order st).2).logs = st.logs := by
  simp only [create_sales_order]
  split
  · simp
  · split
    · simp
    · split
      · simp
      · split <;> simp

/-- `create_sales_order` either leaves the Sales Order list alone or, when no
open Sales Order for the external id exists, appends exactly one submitted
order carrying that id. -/
theorem create_sales_order_so (order : Order) (st : State) :
    ((create_sales_order order st).2).sales_orders = st.sales_orders ∨
    (dbOpenSO st order.id = none ∧
      ∃ so, ((create_sales_order order st).2).sales_orders = st.sales_orders ++ [so] ∧
        so.shopify_order_id = order.id ∧ so.docstatus = 1) := by
  simp only [create_sales_order]
  rcases hso : dbOpenSO st order.id with _ | d
  · simp only [hso]
    rcases htax : get_order_taxes order st.settings with e | ts
    · simp only [htax]
      left; trivial
    · simp only [htax]
      split
      · left; trivial
      · split
        · left; trivial
        · right
          exact ⟨trivial, _, rfl, rfl, rfl⟩
  · simp only [hso]
    left; trivial

/-- Success path of `create_sales_order`: with no existing order, resolvable
taxes and items, and a framework save that does not raise, exactly one
submitted Sales Order is appended, carrying the payload's id and discount. -/
theorem create_sales_order_ok (order : Order) (st : State) (ts : List ChargeLine)
    (hso : dbOpenSO st order.id = none)
    (htax : get_order_taxes order st.settings = Except.ok ts)
    (hres : ∀ li ∈ order.line_items, truthyStr (get_item_code st.items li) = true)
    (hsave : st.oracle.so_save_fails = false) :
    ∃ so, create_sales_order order st =
        (Except.ok so,
          { st with sales_orders := st.sales_orders ++ [so], seq := st.seq + 1 }) ∧
      so.shopify_order_id = order.id ∧ so.docstatus = 1 ∧ so.per_billed = false ∧
      so.discount_amount = get_discounted_amount order := by
  simp only [create_sales_order, hso, htax, hsave,
    get_order_items_all_truthy st.items order.line_items st.settings hres]
  exact ⟨_, rfl, rfl, rfl, rfl, rfl⟩

theorem make_payment_entry_frame (nm : String) (st : State) :
    ((make_payment_entry_against_sales_invoice nm st).2).settings = st.settings ∧
    ((make_payment_entry_against_sales_invoice nm st).2).oracle = st.oracle ∧
    ((make_payment_entry_against_sales_invoice nm st).2).customers = st.customers ∧
    ((make_payment_entry_against_sales_invoice nm st).2).items = st.items ∧
    ((make_payment_entry_against_sales_invoice nm st).2).sales_orders = st.sales_orders ∧
    ((make_payment_entry_against_sales_invoice nm st).2).sales_invoices = st.sales_invoices ∧
    ((make_payment_entry_against_sales_invoice nm st).2).delivery_notes = st.delivery_notes ∧
    ((make_payment_entry_against_sales_invoice nm st).2).logs = st.logs := by
  unfold make_payment_entry_against_sales_invoice
  split <;> simp

theorem create_sales_invoice_frame (order : Order) (so : SalesOrder) (st : State) :
    ((create_sales_invoice order so st).2).settings = st.settings ∧
    ((create_sales_invoice order so st).2).oracle = st.oracle ∧
    ((create_sales_invoice order so st).2).customers = st.customers ∧
    ((create_sales_invoice order so st).2).items = st.items ∧
    ((create_sales_invoice order so st).2).sales_orders = st.sales_orders ∧
    ((create_sales_invoice order so st).2).delivery_notes = st.delivery_notes ∧
    ((create_sales_invoice order so st).2).logs = st.logs := by
  simp only [create_sales_invoice]
  split
  · split
    · simp
    · by_cases hp : st.oracle.payment_entry_fails
      · simp [make_payment_entry_against_sales_invoice, hp]
      · simp [make_payment_entry_against_sales_invoice, hp]
  · simp

/-- `create_sales_invoice` either leaves the Sales Invoice list alone or,
when no Sales Invoice for the external id exists, appends exactly one
carrying that id. -/
theorem create_sales_invoice_si (order : Order) (so : SalesOrder) (st : State) :
    ((create_sales_invoice order so st).2).sales_invoices = st.sales_invoices ∨
    (dbSIByOrderId st.sales_invoices order.id = none ∧
      ∃ si, ((create_sales_invoice order so st).2).sales_invoices = st.sales_invoices ++ [si] ∧
        si.shopify_order_id = some order.id) := by
  simp only [create_sales_invoice]
  split
  · rename_i hcond
    have hnone : dbSIByOrderId st.sales_invoices order.id = none := by
      rcases h0 : dbSIByOrderId st.sales_invoices order.id with _ | d
      · rfl
      · rw [h0] at hcond; simp at hcond
    split
    · left; rfl
    · by_cases hp : st.oracle.payment_entry_fails
      · right
        simp only [make_payment_entry_against_sales_invoice]
        refine ⟨hnone, ?_⟩
        simp only [hp]
        exact ⟨_, rfl, rfl⟩
      · right
        simp only [make_payment_entry_against_sales_invoice]
        refine ⟨hnone, ?_⟩
        simp only [hp]
        exact ⟨_, rfl, rfl⟩
  · left; rfl

/-- Success path of `create_sales_invoice` (lines 209-225): a fresh,
submitted, unbilled order with invoice sync enabled gets exactly one Sales
Invoice and one Payment Entry referencing it. -/
theorem create_sales_invoice_ok (order : Order) (so : SalesOrder) (st : State)
    (hsi : dbSIByOrderId st.sales_invoices order.id = none)
    (hds : so.docstatus = 1) (hpb : so.per_billed = false)
    (htog : st.settings.sync_sales_invoice = true)
    (hins : st.oracle.si_insert_fails = false)
    (hpay : st.oracle.payment_entry_fails = false) :
    ∃ si pe, (create_sales_invoice order so st).1 = Except.ok (some si.name) ∧
      (create_sales_invoice order so st).2 =
        { st with sales_invoices := st.sales_invoices ++ [si]
                  payment_entries := st.payment_entries ++ [pe]
                  seq := st.seq + 1 + 1 } ∧
      si.shopify_order_id = some order.id ∧ si.docstatus = 1 ∧ si.is_return = false ∧
      pe.reference_no = si.name ∧ pe.docstatus = 1 := by
  have hc : ((dbSIByOrderId st.sales_invoices order.id).isNone && decide (so.docstatus = 1)
      && !so.per_billed && st.settings.sync_sales_invoice) = true := by
    rw [hsi, hds, hpb, htog]; rfl
  simp only [create_sales_invoice]
  rw [if_pos hc, if_neg (by simp [hins])]
  simp only [make_payment_entry_against_sales_invoice]
  rw [if_neg (by simp [hpay])]
  exact ⟨_, _, rfl, rfl, rfl, rfl, rfl, rfl, rfl⟩

theorem make_sales_return_frame (nm : String) (st : State) :
    ((make_sales_return_save_submit nm st).2).settings = st.settings ∧
    ((make_sales_return_save_submit nm st).2).oracle = st.oracle ∧
    ((make_sales_return_save_submit nm st).2).customers = st.customers ∧
    ((make_sales_return_save_submit nm st).2).items = st.items ∧
    ((make_sales_return_save_submit nm st).2).sales_orders = st.sales_orders ∧
    ((make_sales_return_save_submit nm st).2).delivery_notes = st.delivery_notes ∧
    ((make_sales_return_save_submit nm st).2).payment_entries = st.payment_entries ∧
    ((make_sales_return_save_submit nm st).2).logs = st.logs := by
  unfold make_sales_return_save_submit
  split <;> simp

/-- The return invoice created by `make_sales_return` carries no external
order id, so it never counts against the per-order-id invoice key. -/
theorem make_sales_return_si (nm : String) (st : State) :
    ((make_sales_return_save_submit nm st).2).sales_invoices = st.sales_invoices ∨
    ∃ rtn, ((make_sales_return_save_submit nm st).2).sales_invoices =
        st.sales_invoices ++ [rtn] ∧ rtn.shopify_order_id = none := by
  unfold make_sales_return_save_submit
  split
  · left; rfl
  · right; exact ⟨_, rfl, rfl⟩

theorem make_sales_return_ok (nm : String) (st : State)
    (h : st.oracle.sales_return_fails = false) :
    ∃ rtn, make_sales_return_save_submit nm st =
        (Except.ok (), { st with sales_invoices := st.sales_invoices ++ [rtn]
                                 seq := st.seq + 1 }) ∧
      rtn.is_return = true ∧ rtn.return_against = some nm ∧ rtn.docstatus = 1 ∧
      rtn.shopify_order_id = none := by
  simp only [make_sales_return_save_submit]
  rw [if_neg (by simp [h])]
  exact ⟨{ name := "SR-" ++ toString st.seq, shopify_order_id := none,
           shopify_order_number := none, posting_date := "", docstatus := 1,
           is_return := true, return_against := some nm, items := [] },
         rfl, rfl, rfl, rfl, rfl⟩

theorem dbOpenSO_congr (st st' : State) (oid : String)
    (h : st.sales_orders = st'.sales_orders) : dbOpenSO st oid = dbOpenSO st' oid := by
  unfold dbOpenSO; rw [h]

theorem create_sales_order_soCount (order : Order) (st : State) (oid : String)
    (h : soCount st oid ≤ 1) : soCount (create_sales_order order st).2 oid ≤ 1 := by
  rcases create_sales_order_so order st with heq | ⟨hnone, so, heq, hid, _⟩
  · rw [soCount, heq]; exact h
  · rw [soCount, heq, List.countP_append]
    by_cases hkey : oid = order.id
    · subst hkey
      have h0 : st.sales_orders.countP (soKey order.id) = 0 :=
        countP_eq_zero_of_find?_none _ _ hnone
      rw [h0]
      have : List.countP (soKey order.id) [so] ≤ [so].length := List.countP_le_length _
      simpa using this
    · have hne : so.shopify_order_id ≠ oid := by
        rw [hid]; exact fun hh => hkey hh.symm
      have h1 : List.countP (soKey oid) [so] = 0 := by
        simp [List.countP_cons, soKey, hne]
      rw [h1]
      simpa [soCount] using h
  
theorem create_sales_invoice_siCount (order : Order) (so : SalesOrder) (st : State)
    (oid : String) (h : siCount st oid ≤ 1) :
    siCount (create_sales_invoice order so st).2 oid ≤ 1 := by
  rcases create_sales_invoice_si order so st with heq | ⟨hnone, si, heq, hid⟩
  · rw [siCount, heq]; exact h
  · rw [siCount, heq, List.countP_append]
    by_cases hkey : oid = order.id
    · subst hkey
      have h0 : st.sales_invoices.countP (siKey order.id) = 0 :=
        countP_eq_zero_of_find?_none _ _ hnone
      rw [h0]
      have : List.countP (siKey order.id) [si] ≤ [si].length := List.countP_le_length _
      simpa using this
    · have hne : si.shopify_order_id ≠ some oid := by
        rw [hid]; intro hh
        exact hkey (Option.some.inj hh).symm
      have h1 : List.countP (siKey oid) [si] = 0 := by
        simp [List.countP_cons, siKey, hne]
      rw [h1]
      simpa [siCount] using h

theorem make_sales_return_siCount (nm : String) (st : State) (oid : String)
    (h : siCount st oid ≤ 1) : siCount (make_sales_return_save_submit nm st).2 oid ≤ 1 := by
  rcases make_sales_return_si nm st with heq | ⟨rtn, heq, hid⟩
  · rw [siCount, heq]; exact h
  · rw [siCount, heq, List.countP_append]
    have h1 : List.countP (siKey oid) [rtn] = 0 := by
      simp [List.countP_cons, siKey, hid]
    rw [h1]
    simpa [siCount] using h

theorem shopify_invoice_core_frame (order : Order) (so : SalesOrder) (st : State) :
    ((shopify_invoice_core order so st).2).settings = st.settings ∧
    ((shopify_invoice_core order so st).2).oracle = st.oracle ∧
    ((shopify_invoice_core order so st).2).customers = st.customers ∧
    ((shopify_invoice_core order so st).2).items = st.items ∧
    ((shopify_invoice_core order so st).2).sales_orders = st.sales_orders ∧
    ((shopify_invoice_core order so st).2).delivery_notes = st.delivery_notes ∧
    ((shopify_invoice_core order so st).2).logs = st.logs := by
  unfold shopify_invoice_core
  rcases h1 : create_sales_invoice order so st with ⟨r1, st1⟩
  have f1 := create_sales_invoice_frame order so st
  rw [h1] at f1
  obtain ⟨f1a, f1b, f1c, f1d, f1e, f1f, f1g⟩ := f1
  cases r1 with
  | error e => exact ⟨f1a, f1b, f1c, f1d, f1e, f1f, f1g⟩
  | ok si? =>
    cases si? with
    | none => exact ⟨f1a, f1b, f1c, f1d, f1e, f1f, f1g⟩
    | some nm =>
      by_cases hr : cstr order.financial_status = "refunded"
      · simp only [hr, if_true]
        rcases h2 : make_sales_return_save_submit nm st1 with ⟨r2, st2⟩
        have f2 := make_sales_return_frame nm st1
        rw [h2] at f2
        obtain ⟨g1, g2, g3, g4, g5, g6, _, g8⟩ := f2
        cases r2 with
        | error e =>
          exact ⟨g1.trans f1a, g2.trans f1b, g3.trans f1c, g4.trans f1d,
            g5.trans f1e, g6.trans f1f, g8.trans f1g⟩
        | ok _ =>
          exact ⟨g1.trans f1a, g2.trans f1b, g3.trans f1c, g4.trans f1d,
            g5.trans f1e, g6.trans f1f, g8.trans f1g⟩
      · simp only [hr, if_false]
        exact ⟨f1a, f1b, f1c, f1d, f1e, f1f, f1g⟩

theorem shopify_invoice_core_siCount (order : Order) (so : SalesOrder) (st : State)
    (oid : String) (h : siCount st oid ≤ 1) :
    siCount (shopify_invoice_core order so st).2 oid ≤ 1 := by
  unfold shopify_invoice_core
  rcases h1 : create_sales_invoice order so st with ⟨r1, st1⟩
  have c1 := create_sales_invoice_siCount order so st oid h
  rw [h1] at c1
  cases r1 with
  | error e => exact c1
  | ok si? =>
    cases si? with
    | none => exact c1
    | some nm =>
      by_cases hr : cstr order.financial_status = "refunded"
      · simp only [hr, if_true]
        rcases h2 : make_sales_return_save_submit nm st1 with ⟨r2, st2⟩
        have c2 := make_sales_return_siCount nm st1 oid c1
        rw [h2] at c2
        cases r2 with
        | error e => exact c2
        | ok _ => exact c2
      · simp only [hr, if_false]
        exact c1

theorem create_shopify_invoice_frame (order : Order) (so : SalesOrder) (st : State) :
    ((create_shopify_invoice order so st).2).settings = st.settings ∧
    ((create_shopify_invoice order so st).2).oracle = st.oracle ∧
    ((create_shopify_invoice order so st).2).customers = st.customers ∧
    ((create_shopify_invoice order so st).2).items = st.items ∧
    ((create_shopify_invoice order so st).2).sales_orders = st.sales_orders ∧
    ((create_shopify_invoice order so st).2).delivery_notes = st.delivery_notes := by
  unfold create_shopify_invoice
  split
  · simp
  · rcases h1 : shopify_invoice_core order so st with ⟨r1, st1⟩
    have f1 := shopify_invoice_core_frame order so st
    rw [h1] at f1
    obtain ⟨f1a, f1b, f1c, f1d, f1e, f1f, _⟩ := f1
    cases r1 with
    | error e => exact ⟨f1a, f1b, f1c, f1d, f1e, f1f⟩
    | ok si? => exact ⟨f1a, f1b, f1c, f1d, f1e, f1f⟩

theorem create_shopify_invoice_siCount (order : Order) (so : SalesOrder) (st : State)
    (oid : String) (h : siCount st oid ≤ 1) :
    siCount (create_shopify_invoice order so st).2 oid ≤ 1 := by
  unfold create_shopify_invoice
  split
  · exact h
  · rcases h1 : shopify_invoice_core order so st with ⟨r1, st1⟩
    have c1 := shopify_invoice_core_siCount order so st oid h
    rw [h1] at c1
    cases r1 with
    | error e => exact c1
    | ok si? => exact c1

theorem create_delivery_note_loop_frame (order : Order) (so : SalesOrder)
    (fs : List Fulfillment) : ∀ acc : List String, ∀ st : State,
    ((create_delivery_note_loop order so acc st fs).2).settings = st.settings ∧
    ((create_delivery_note_loop order so acc st fs).2).oracle = st.oracle ∧
    ((create_delivery_note_loop order so acc st fs).2).customers = st.customers ∧
    ((create_delivery_note_loop order so acc st fs).2).items = st.items ∧
    ((create_delivery_note_loop order so acc st fs).2).sales_orders = st.sales_orders ∧
    ((create_delivery_note_loop order so acc st fs).2).sales_invoices = st.sales_invoices ∧
    ((create_delivery_note_loop order so acc st fs).2).payment_entries = st.payment_entries ∧
    ((create_delivery_note_loop order so acc st fs).2).logs = st.logs := by
  induction fs with
  | nil => intro acc st; simp [create_delivery_note_loop]
  | cons f rest ih =>
    intro acc st
    rw [create_delivery_note_loop]
    split
    · split
      · simp
      · have hr := ih (acc ++ ["DN-" ++ toString st.seq])
          { st with
            delivery_notes := st.delivery_notes ++
              [{ name := "DN-" ++ toString st.seq
                 shopify_order_id := f.order_id
                 shopify_order_number := order.name
                 shopify_fulfillment_id := f.id
                 posting_date := cstr f.created_at
                 docstatus := 1
                 items := get_fulfillment_items st.items (make_dn_items so) f.line_items }]
            seq := st.seq + 1 }
        obtain ⟨g1, g2, g3, g4, g5, g6, g7, g8⟩ := hr
        exact ⟨g1, g2, g3, g4, g5, g6, g7, g8⟩
    · exact ih acc st

theorem create_delivery_note_loop_dnCount (order : Order) (so : SalesOrder)
    (fs : List Fulfillment) : ∀ acc : List String, ∀ st : State,
    (∀ fid, dnCount st fid ≤ 1) →
    ∀ fid, dnCount (create_delivery_note_loop order so acc st fs).2 fid ≤ 1 := by
  induction fs with
  | nil => intro acc st h fid; simpa [create_delivery_note_loop] using h fid
  | cons f rest ih =>
    intro acc st h fid
    rw [create_delivery_note_loop]
    split
    · rename_i hguard
      split
      · exact h fid
      · apply ih
        intro fid'
        rw [dnCount]
        simp only [List.countP_append]
        have hbase := h fid'
        rw [dnCount] at hbase
        by_cases hkey : f.id = some fid'
        · have hnone : st.delivery_notes.find? (dnKey fid') = none := by
            have := hguard
            rw [hkey] at this
            simp only [dbDNByFulfillment] at this
            rcases h0 : st.delivery_notes.find? (dnKey fid') with _ | d
            · rfl
            · rw [h0] at this; simp at this
          have h0 : st.delivery_notes.countP (dnKey fid') = 0 :=
            countP_eq_zero_of_find?_none _ _ hnone
          rw [h0]
          have hlen : List.countP (dnKey fid')
              [{ name := "DN-" ++ toString st.seq
                 shopify_order_id := f.order_id
                 shopify_order_number := order.name
                 shopify_fulfillment_id := f.id
                 posting_date := cstr f.created_at
                 docstatus := 1
                 items := get_fulfillment_items st.items (make_dn_items so) f.line_items }] ≤ 1 := by
            have := List.countP_le_length (l :=
              [({ name := "DN-" ++ toString st.seq
                  shopify_order_id := f.order_id
                  shopify_order_number := order.name
                  shopify_fulfillment_id := f.id
                  posting_date := cstr f.created_at
                  docstatus := 1
                  items := get_fulfillment_items st.items (make_dn_items so) f.line_items } :
                DeliveryNote)]) (p := dnKey fid')
            simpa using this
          simpa using hlen
        · have h1 : List.countP (dnKey fid')
              [{ name := "DN-" ++ toString st.seq
                 shopify_order_id := f.order_id
                 shopify_order_number := order.name
                 shopify_fulfillment_id := f.id
                 posting_date := cstr f.created_at
                 docstatus := 1
                 items := get_fulfillment_items st.items (make_dn_items so) f.line_items }] = 0 := by
            simp [List.countP_cons, dnKey, hkey]
          rw [h1]
          simpa using hbase
    · exact ih acc st h fid

theorem create_delivery_note_frame (order : Order) (so : SalesOrder) (st : State) :
    ((create_delivery_note order so st).2).settings = st.settings ∧
    ((create_delivery_note order so st).2).oracle = st.oracle ∧
    ((create_delivery_note order so st).2).customers = st.customers ∧
    ((create_delivery_note order so st).2).items = st.items ∧
    ((create_delivery_note order so st).2).sales_orders = st.sales_orders ∧
    ((create_delivery_note order so st).2).sales_invoices = st.sales_invoices ∧
    ((create_delivery_note order so st).2).payment_entries = st.payment_entries ∧
    ((create_delivery_note order so st).2).logs = st.logs := by
  unfold create_delivery_note
  split
  · simp
  · rcases h1 : create_delivery_note_loop order so [] st order.fulfillments with ⟨r1, st1⟩
    have f1 := create_delivery_note_loop_frame order so order.fulfillments [] st
    rw [h1] at f1
    cases r1 with
    | error e => exact f1
    | ok dns => exact f1

theorem create_delivery_note_dnCount (order : Order) (so : SalesOrder) (st : State)
    (h : ∀ fid, dnCount st fid ≤ 1) :
    ∀ fid, dnCount (create_delivery_note order so st).2 fid ≤ 1 := by
  intro fid
  unfold create_delivery_note
  split
  · exact h fid
  · rcases h1 : create_delivery_note_loop order so [] st order.fulfillments with ⟨r1, st1⟩
    have c1 := create_delivery_note_loop_dnCount order so order.fulfillments [] st h fid
    rw [h1] at c1
    cases r1 with
    | error e => exact c1
    | ok dns => exact c1

theorem create_shopify_delivery_frame (order : Order) (so : SalesOrder) (st : State) :
    ((create_shopify_delivery order so st).2).settings = st.settings ∧
    ((create_shopify_delivery order so st).2).oracle = st.oracle ∧
    ((create_shopify_delivery order so st).2).customers = st.customers ∧
    ((create_shopify_delivery order so st).2).items = st.items ∧
    ((create_shopify_delivery order so st).2).sales_orders = st.sales_orders ∧
    ((create_shopify_delivery order so st).2).sales_invoices = st.sales_invoices ∧
    ((create_shopify_delivery order so st).2).payment_entries = st.payment_entries := by
  unfold create_shopify_delivery
  split
  · simp
  · rcases h1 : create_delivery_note order so st with ⟨r1, st1⟩
    have f1 := create_delivery_note_frame order so st
    rw [h1] at f1
    obtain ⟨f1a, f1b, f1c, f1d, f1e, f1f, f1g, _⟩ := f1
    cases r1 with
    | error e => exact ⟨f1a, f1b, f1c, f1d, f1e, f1f, f1g⟩
    | ok dns => exact ⟨f1a, f1b, f1c, f1d, f1e, f1f, f1g⟩

theorem create_shopify_delivery_dnCount (order : Order) (so : SalesOrder) (st : State)
    (h : ∀ fid, dnCount st fid ≤ 1) :
    ∀ fid, dnCount (create_shopify_delivery order so st).2 fid ≤ 1 := by
  intro fid
  unfold create_shopify_delivery
  split
  · exact h fid
  · rcases h1 : create_delivery_note order so st with ⟨r1, st1⟩
    have c1 := create_delivery_note_dnCount order so st h fid
    rw [h1] at c1
    cases r1 with
    | error e => exact c1
    | ok dns => exact c1

theorem pushLog_frame (st : State) (l : LogEntry) :
    (pushLog st l).settings = st.settings ∧ (pushLog st l).oracle = st.oracle ∧
    (pushLog st l).customers = st.customers ∧ (pushLog st l).items = st.items ∧
    (pushLog st l).sales_orders = st.sales_orders ∧
    (pushLog st l).sales_invoices = st.sales_invoices ∧
    (pushLog st l).delivery_notes = st.delivery_notes ∧
    (pushLog st l).payment_entries = st.payment_entries ∧
    (pushLog st l).logs = st.logs ++ [l] := by
  unfold pushLog; simp

theorem shopify_order_core_frame (order : Order) (st : State) :
    ((shopify_order_core order st).2).settings = st.settings ∧
    ((shopify_order_core order st).2).oracle = st.oracle ∧
    ((shopify_order_core order st).2).sales_invoices = st.sales_invoices ∧
    ((shopify_order_core order st).2).delivery_notes = st.delivery_notes ∧
    ((shopify_order_core order st).2).payment_entries = st.payment_entries ∧
    ((shopify_order_core order st).2).logs = st.logs := by
  unfold shopify_order_core
  rcases h1 : validate_customer order st with ⟨r1, st1⟩
  have f1 := validate_customer_frame order st
  rw [h1] at f1
  obtain ⟨f1a, f1b, _, _, f1e, f1f, f1g, f1h⟩ := f1
  cases r1 with
  | error e => exact ⟨f1a, f1b, f1e, f1f, f1g, f1h⟩
  | ok _ =>
    dsimp only
    rcases h2 : validate_item order st1 with ⟨r2, st2⟩
    have f2 := validate_item_loop_frame order.line_items st1
    rw [show validate_item_loop st1 order.line_items = validate_item order st1 from rfl, h2] at f2
    obtain ⟨g1, g2, _, g4, g5, g6, g7, _⟩ := f2
    cases r2 with
    | error e =>
      exact ⟨g1.trans f1a, g2.trans f1b, g4.trans f1e, g5.trans f1f,
        g6.trans f1g, g7.trans f1h⟩
    | ok _ =>
      have f3 := create_sales_order_frame order st2
      obtain ⟨c1, c2, _, _, c5, c6, c7, c8⟩ := f3
      exact ⟨c1.trans (g1.trans f1a), c2.trans (g2.trans f1b),
        c5.trans (g4.trans f1e), c6.trans (g5.trans f1f),
        c7.trans (g6.trans f1g), c8.trans (g7.trans f1h)⟩

/-- The creation chain behind `create_shopify_order` either leaves the Sales
Order list alone or appends exactly one submitted order carrying the
external id, and only when no open order for that id existed. -/
theorem shopify_order_core_so (order : Order) (st : State) :
    ((shopify_order_core order st).2).sales_orders = st.sales_orders ∨
    (dbOpenSO st order.id = none ∧
      ∃ so, ((shopify_order_core order st).2).sales_orders = st.sales_orders ++ [so] ∧
        so.shopify_order_id = order.id ∧ so.docstatus = 1) := by
  unfold shopify_order_core
  rcases h1 : validate_customer order st with ⟨r1, st1⟩
  have f1 := validate_customer_frame order st
  rw [h1] at f1
  obtain ⟨_, _, _, f1so, _, _, _, _⟩ := f1
  cases r1 with
  | error e => left; exact f1so
  | ok _ =>
    dsimp only
    rcases h2 : validate_item order st1 with ⟨r2, st2⟩
    have f2 := validate_item_loop_frame order.line_items st1
    rw [show validate_item_loop st1 order.line_items = validate_item order st1 from rfl, h2] at f2
    obtain ⟨_, _, g3, _, _, _, _, _⟩ := f2
    cases r2 with
    | error e => left; exact g3.trans f1so
    | ok _ =>
      have hsales : st2.sales_orders = st.sales_orders := g3.trans f1so
      rcases create_sales_order_so order st2 with heq | ⟨hnone, so, heq, hid, hds⟩
      · left; exact heq.trans hsales
      · right
        refine ⟨?_, so, ?_, hid, hds⟩
        · rw [← dbOpenSO_congr st2 st order.id hsales]
          exact hnone
        · rw [heq, hsales]

theorem shopify_order_core_soCount (order : Order) (st : State) (oid : String)
    (h : soCount st oid ≤ 1) : soCount (shopify_order_core order st).2 oid ≤ 1 := by
  rcases shopify_order_core_so order st with heq | ⟨hnone, so, heq, hid, _⟩
  · rw [soCount, heq]; exact h
  · rw [soCount, heq, List.countP_append]
    by_cases hkey : oid = order.id
    · subst hkey
      have h0 : st.sales_orders.countP (soKey order.id) = 0 :=
        countP_eq_zero_of_find?_none _ _ hnone
      rw [h0]
      have : List.countP (soKey order.id) [so] ≤ [so].length := List.countP_le_length _
      simpa using this
    · have hne : so.shopify_order_id ≠ oid := by
        rw [hid]; exact fun hh => hkey hh.symm
      have h1 : List.countP (soKey oid) [so] = 0 := by
        simp [List.countP_cons, soKey, hne]
      rw [h1]
      simpa [soCount] using h

theorem create_shopify_order_frame (order : Order) (st : State) :
    ((create_shopify_order order st).2).settings = st.settings ∧
    ((create_shopify_order order st).2).oracle = st.oracle ∧
    ((create_shopify_order order st).2).sales_invoices = st.sales_invoices ∧
    ((create_shopify_order order st).2).delivery_notes = st.delivery_notes ∧
    ((create_shopify_order order st).2).payment_entries = st.payment_entries := by
  unfold create_shopify_order
  rcases h0 : dbOpenSO st (cstr (some order.id)) with _ | d
  · rcases h1 : shopify_order_core order st with ⟨r1, st1⟩
    have f1 := shopify_order_core_frame order st
    rw [h1] at f1
    obtain ⟨f1a, f1b, f1c, f1d, f1e, _⟩ := f1
    cases r1 with
    | error e => exact ⟨f1a, f1b, f1c, f1d, f1e⟩
    | ok so => exact ⟨f1a, f1b, f1c, f1d, f1e⟩
  · exact ⟨rfl, rfl, rfl, rfl, rfl⟩

theorem create_shopify_order_soCount (order : Order) (st : State) (oid : String)
    (h : soCount st oid ≤ 1) : soCount (create_shopify_order order st).2 oid ≤ 1 := by
  unfold create_shopify_order
  rcases h0 : dbOpenSO st (cstr (some order.id)) with _ | d
  · rcases h1 : shopify_order_core order st with ⟨r1, st1⟩
    have c1 := shopify_order_core_soCount order st oid h
    rw [h1] at c1
    cases r1 with
    | error e => exact c1
    | ok so => exact c1
  · exact h

/-- A single `sync_sales_order` run preserves the at-most-one-per-external-key
invariants for Sales Orders, Sales Invoices and Delivery Notes. -/
theorem sync_preserves_unique (order : Order) (st : State)
    (h1 : ∀ oid, soCount st oid ≤ 1) (h2 : ∀ oid, siCount st oid ≤ 1)
    (h3 : ∀ fid, dnCount st fid ≤ 1) :
    (∀ oid, soCount (sync_sales_order order st) oid ≤ 1) ∧
    (∀ oid, siCount (sync_sales_order order st) oid ≤ 1) ∧
    (∀ fid, dnCount (sync_sales_order order st) fid ≤ 1) := by
  unfold sync_sales_order
  rcases hw : create_shopify_order order st with ⟨so?, st1⟩
  have fw := create_shopify_order_frame order st
  rw [hw] at fw
  obtain ⟨_, _, fwsi, fwdn, _⟩ := fw
  have hso1 : ∀ oid, soCount st1 oid ≤ 1 := by
    intro oid
    have := create_shopify_order_soCount order st oid (h1 oid)
    rw [hw] at this
    exact this
  have hsi1 : ∀ oid, siCount st1 oid ≤ 1 := by
    intro oid
    rw [siCount, fwsi]
    exact h2 oid
  have hdn1 : ∀ fid, dnCount st1 fid ≤ 1 := by
    intro fid
    rw [dnCount, fwdn]
    exact h3 fid
  cases so? with
  | none => exact ⟨hso1, hsi1, hdn1⟩
  | some so =>
    dsimp only
    rcases hi : create_shopify_invoice order so st1 with ⟨si?, st2⟩
    have fi := create_shopify_invoice_frame order so st1
    rw [hi] at fi
    obtain ⟨_, _, _, _, fiso, fidn⟩ := fi
    have hso2 : ∀ oid, soCount st2 oid ≤ 1 := by
      intro oid
      rw [soCount, fiso]
      exact hso1 oid
    have hsi2 : ∀ oid, siCount st2 oid ≤ 1 := by
      intro oid
      have := create_shopify_invoice_siCount order so st1 oid (hsi1 oid)
      rw [hi] at this
      exact this
    have hdn2 : ∀ fid, dnCount st2 fid ≤ 1 := by
      intro fid
      rw [dnCount, fidn]
      exact hdn1 fid
    rcases hd : create_shopify_delivery order so st2 with ⟨dns?, st3⟩
    have fd := create_shopify_delivery_frame order so st2
    rw [hd] at fd
    obtain ⟨_, _, _, _, fdso, fdsi, _⟩ := fd
    refine ⟨?_, ?_, ?_⟩
    · intro oid
      rw [soCount, fdso]
      exact hso2 oid
    · intro oid
      rw [siCount, fdsi]
      exact hsi2 oid
    · intro fid
      have := create_shopify_delivery_dnCount order so st2 hdn2 fid
      rw [hd] at this
      exact this

/-! ## Item resolution lemmas -/

theorem dbItemByVariant_append (items ex : List Item) (q : Option String)
    (h : truthyStr (dbItemByVariant items q) = true) :
    dbItemByVariant (items ++ ex) q = dbItemByVariant items q := by
  unfold dbItemByVariant at *
  cases q with
  | none => simp [truthyStr] at h
  | some v =>
    dsimp only at h ⊢
    rcases hf : items.find? (fun it => decide (it.shopify_variant_id = some v)) with _ | it
    · rw [hf] at h; simp [truthyStr] at h
    · rw [find?_append_of_some hf, hf]

theorem dbItemByProduct_append (items ex : List Item) (q : Option String)
    (h : truthyStr (dbItemByProduct items q) = true) :
    dbItemByProduct (items ++ ex) q = dbItemByProduct items q := by
  unfold dbItemByProduct at *
  cases q with
  | none => simp [truthyStr] at h
  | some pid =>
    dsimp only at h ⊢
    rcases hf : items.find? (fun it => decide (it.shopify_product_id = some pid)) with _ | it
    · rw [hf] at h; simp [truthyStr] at h
    · rw [find?_append_of_some hf, hf]

theorem dbItemByName_append (items ex : List Item) (q : Option String)
    (h : truthyStr (dbItemByName items q) = true) :
    dbItemByName (items ++ ex) q = dbItemByName items q := by
  unfold dbItemByName at *
  cases q with
  | none => simp [truthyStr] at h
  | some t =>
    dsimp only at h ⊢
    rcases hf : items.find? (fun it => decide (it.item_name = t)) with _ | it
    · rw [hf] at h; simp [truthyStr] at h
    · rw [find?_append_of_some hf, hf]

theorem get_item_code_truthy_iff (items : List Item) (li : LineItem) :
    truthyStr (get_item_code items li) =
      (truthyStr (dbItemByVariant items li.variant_id) ||
       truthyStr (dbItemByProduct items (pyOr li.product_id li.id)) ||
       truthyStr (dbItemByName items li.title)) := by
  unfold get_item_code
  by_cases h1 : truthyStr (dbItemByVariant items li.variant_id) = true
  · simp [h1]
  · rw [Bool.not_eq_true] at h1
    by_cases h2 : truthyStr (dbItemByProduct items (pyOr li.product_id li.id)) = true
    · simp [h1, h2]
    · rw [Bool.not_eq_true] at h2
      simp [h1, h2]

theorem get_item_code_truthy_mono (items ex : List Item) (li : LineItem)
    (h : truthyStr (get_item_code items li) = true) :
    truthyStr (get_item_code (items ++ ex) li) = true := by
  rw [get_item_code_truthy_iff] at h ⊢
  rcases Bool.or_eq_true_iff.mp h with h12 | h3
  · rcases Bool.or_eq_true_iff.mp h12 with h1 | h2
    · rw [dbItemByVariant_append items ex _ h1, h1]
      simp
    · by_cases hv : truthyStr (dbItemByVariant (items ++ ex) li.variant_id) = true
      · simp [hv]
      · rw [dbItemByProduct_append items ex _ h2, h2]
        simp
  · by_cases hv : truthyStr (dbItemByVariant (items ++ ex) li.variant_id) = true
    · simp [hv]
    · by_cases hp : truthyStr (dbItemByProduct (items ++ ex) (pyOr li.product_id li.id)) = true
      · simp [hp]
      · rw [dbItemByName_append items ex _ h3, h3]
        simp

theorem get_item_code_all_none (items : List Item) (li : LineItem)
    (hv : li.variant_id = none) (hp : li.product_id = none) (hid : li.id = none)
    (ht : li.title = none) : get_item_code items li = none := by
  unfold get_item_code
  rw [hv, hp, hid, ht]
  simp [dbItemByVariant, dbItemByProduct, dbItemByName, pyOr, truthyStr]

/-! ## Error-path and success-path lemmas for the order stage -/

theorem create_sales_order_err_of_unresolved (order : Order) (st : State)
    (li : LineItem) (hnone : dbOpenSO st order.id = none)
    (hmem : li ∈ order.line_items)
    (hgic : get_item_code st.items li = none) :
    ∃ e, create_sales_order order st = (Except.error e, st) := by
  simp only [create_sales_order, hnone]
  rcases htax : get_order_taxes order st.settings with e | ts
  · exact ⟨e, rfl⟩
  · have hany : ((get_order_items st.items order.line_items st.settings).any
        (fun it => !truthyStr it.item_code)) = true := by
      rw [List.any_eq_true, get_order_items]
      exact ⟨_, List.mem_map_of_mem _ hmem, by simp [hgic, truthyStr]⟩
    dsimp only
    rw [if_pos hany]
    exact ⟨Err.missingItemCode, rfl⟩

theorem shopify_order_core_err_of_unresolved (order : Order) (st : State)
    (li : LineItem) (hfresh : dbOpenSO st order.id = none)
    (hmem : li ∈ order.line_items) (hv : li.variant_id = none)
    (hp : li.product_id = none) (hid : li.id = none) (ht : li.title = none) :
    ∃ e st', shopify_order_core order st = (Except.error e, st') ∧
      st'.sales_orders = st.sales_orders ∧ st'.logs = st.logs := by
  unfold shopify_order_core
  rcases h1 : validate_customer order st with ⟨r1, st1⟩
  have f1 := validate_customer_frame order st
  rw [h1] at f1
  obtain ⟨_, _, _, f1so, _, _, _, f1lg⟩ := f1
  cases r1 with
  | error e => exact ⟨e, st1, rfl, f1so, f1lg⟩
  | ok _ =>
    dsimp only
    rcases h2 : validate_item order st1 with ⟨r2, st2⟩
    have f2 := validate_item_loop_frame order.line_items st1
    rw [show validate_item_loop st1 order.line_items = validate_item order st1 from rfl,
      h2] at f2
    obtain ⟨_, _, g3, _, _, _, g7, _⟩ := f2
    cases r2 with
    | error e => exact ⟨e, st2, rfl, g3.trans f1so, g7.trans f1lg⟩
    | ok _ =>
      have hsales : st2.sales_orders = st.sales_orders := g3.trans f1so
      have hnone2 : dbOpenSO st2 order.id = none := by
        rw [dbOpenSO_congr st2 st order.id hsales]
        exact hfresh
      obtain ⟨e, heq⟩ := create_sales_order_err_of_unresolved order st2 li hnone2 hmem
        (get_item_code_all_none st2.items li hv hp hid ht)
      exact ⟨e, st2, heq, hsales, g7.trans f1lg⟩

theorem validate_item_ok (order : Order) (st : State)
    (h : st.oracle.make_item_fails = false) :
    (validate_item order st).1 = Except.ok () :=
  validate_item_loop_ok order.line_items st h

/-- Success path of the whole creation chain behind `create_shopify_order`. -/
theorem shopify_order_core_ok (order : Order) (st : State) (ts : List ChargeLine)
    (hfresh : dbOpenSO st order.id = none)
    (htax : get_order_taxes order st.settings = Except.ok ts)
    (hres : ∀ li ∈ order.line_items, truthyStr (get_item_code st.items li) = true)
    (hoc : st.oracle.create_customer_fails = false)
    (hmi : st.oracle.make_item_fails = false)
    (hsv : st.oracle.so_save_fails = false) :
    ∃ so st', shopify_order_core order st = (Except.ok so, st') ∧
      st'.sales_orders = st.sales_orders ++ [so] ∧
      so.shopify_order_id = order.id ∧ so.docstatus = 1 ∧ so.per_billed = false ∧
      so.discount_amount = get_discounted_amount order ∧
      st'.sales_invoices = st.sales_invoices ∧
      st'.delivery_notes = st.delivery_notes ∧
      st'.payment_entries = st.payment_entries ∧
      st'.logs = st.logs ∧ st'.settings = st.settings ∧ st'.oracle = st.oracle := by
  unfold shopify_order_core
  rcases h1 : validate_customer order st with ⟨r1, st1⟩
  have hok1 := validate_customer_ok order st hoc
  rw [h1] at hok1
  have f1 := validate_customer_frame order st
  rw [h1] at f1
  obtain ⟨f1set, f1or, f1it, f1so, f1si, f1dn, f1pe, f1lg⟩ := f1
  cases r1 with
  | error e => exact absurd hok1 (by simp)
  | ok _ =>
    dsimp only
    rcases h2 : validate_item order st1 with ⟨r2, st2⟩
    have hok2 := validate_item_ok order st1 (by rw [f1or]; exact hmi)
    rw [h2] at hok2
    have f2 := validate_item_loop_frame order.line_items st1
    rw [show validate_item_loop st1 order.line_items = validate_item order st1 from rfl,
      h2] at f2
    obtain ⟨g1, g2, g3, g4, g5, g6, g7, ex, hex⟩ := f2
    cases r2 with
    | error e => exact absurd hok2 (by simp)
    | ok _ =>
      have hsales : st2.sales_orders = st.sales_orders := g3.trans f1so
      have hset : st2.settings = st.settings := g1.trans f1set
      have hor : st2.oracle = st.oracle := g2.trans f1or
      have hitems : st2.items = st.items ++ ex := by rw [hex, f1it]
      have hnone2 : dbOpenSO st2 order.id = none := by
        rw [dbOpenSO_congr st2 st order.id hsales]
        exact hfresh
      have htax2 : get_order_taxes order st2.settings = Except.ok ts := by
        rw [hset]; exact htax
      have hres2 : ∀ li ∈ order.line_items, truthyStr (get_item_code st2.items li) = true := by
        intro li hli
        rw [hitems]
        exact get_item_code_truthy_mono st.items ex li (hres li hli)
      have hsv2 : st2.oracle.so_save_fails = false := by rw [hor]; exact hsv
      obtain ⟨so, heq, hid, hds, hpb, hdisc⟩ :=
        create_sales_order_ok order st2 ts hnone2 htax2 hres2 hsv2
      refine ⟨so, _, heq, ?_, hid, hds, hpb, hdisc, ?_, ?_, ?_, ?_, ?_, ?_⟩
      · simp [hsales]
      · exact g4.trans f1si
      · exact g5.trans f1dn
      · exact g6.trans f1pe
      · exact g7.trans f1lg
      · exact hset
      · exact hor

theorem create_sales_order_ok_inv (order : Order) (st : State) (so : SalesOrder)
    (st' : State) (hnone : dbOpenSO st order.id = none)
    (h : create_sales_order order st = (Except.ok so, st')) :
    so.shopify_order_id = order.id ∧ so.docstatus = 1 ∧ so.per_billed = false ∧
    so.discount_amount = get_discounted_amount order := by
  simp only [create_sales_order, hnone] at h
  rcases htax : get_order_taxes order st.settings with e | ts
  · rw [htax] at h
    simp at h
  · rw [htax] at h
    dsimp only at h
    split at h
    · simp at h
    · split at h
      · simp at h
      · rw [Prod.mk.injEq] at h
        obtain ⟨h1, _⟩ := h
        rw [Except.ok.injEq] at h1
        subst h1
        exact ⟨rfl, rfl, rfl, rfl⟩

theorem shopify_order_core_ok_inv (order : Order) (st : State) (so : SalesOrder)
    (st' : State) (hfresh : dbOpenSO st order.id = none)
    (h : shopify_order_core order st = (Except.ok so, st')) :
    so.shopify_order_id = order.id ∧ so.docstatus = 1 ∧ so.per_billed = false ∧
    so.discount_amount = get_discounted_amount order := by
  unfold shopify_order_core at h
  rcases h1 : validate_customer order st with ⟨r1, st1⟩
  rw [h1] at h
  have f1 := validate_customer_frame order st
  rw [h1] at f1
  cases r1 with
  | error e => simp at h
  | ok _ =>
    dsimp only at h
    rcases h2 : validate_item order st1 with ⟨r2, st2⟩
    rw [h2] at h
    have f2 := validate_item_loop_frame order.line_items st1
    rw [show validate_item_loop st1 order.line_items = validate_item order st1 from rfl,
      h2] at f2
    cases r2 with
    | error e => simp at h
    | ok _ =>
      dsimp only at h
      have hnone2 : dbOpenSO st2 order.id = none := by
        rw [dbOpenSO_congr st2 st order.id (f2.2.2.1.trans f1.2.2.2.1)]
        exact hfresh
      exact create_sales_order_ok_inv order st2 so st' hnone2 h

/-! ## Claims -/

/-- C1 (code bug): the claim says `update_taxes_with_shipping_lines` appends
one actual-amount charge line per nested tax line of a shipping charge,
falling back to the shipping charge itself only when no nested tax lines
exist.  The source computes
`shipping_tax_lines = [shipping_charge] or shipping_charge.get('tax_lines')`,
and a singleton list is always truthy, so the left operand always wins: the
nested tax lines are dead code.  The first conjunct shows the Python `or`
never selects the right operand; the rest evaluates the function on a
shipping charge that does carry a nested tax line ("VAT", 2) and shows the
output is a single charge line built from the shipping charge itself
("Shipping", 10), not from the nested tax line. -/
theorem c1_shipping_tax_lines_dead_fallback :
    (∀ (t : ShippingTaxLine) (l : List ShippingTaxLine), pyListOr [t] l = [t]) ∧
    exShippingLine.tax_lines = [{ title := "VAT", price := 2 }] ∧
    update_taxes_with_shipping_lines [] [exShippingLine] exSettings =
      Except.ok [{ charge_type := ChargeType.actual, account_head := "Ship Acct",
                   description := "Shipping", rate := none, tax_amount := some 10,
                   included_in_print_rate := none, cost_center := "CC" }] := by
  refine ⟨fun t l => rfl, rfl, ?_⟩
  rfl

/-- C6 counterexample: a configured row can map a tax title to an empty
account; the mapping exists in the lookup table yet `get_tax_account_head`
still raises, so "raises iff no mapping exists" fails in the only-if
direction. -/
theorem c6_counterexample :
    (([⟨"GST", ""⟩] : List TaxTableRow).find?
      (fun r => decide (r.shopify_tax = "GST"))).isSome = true ∧
    get_tax_account_head [⟨"GST", ""⟩] "GST" =
      Except.error (Err.taxAccount "GST") := by
  exact ⟨rfl, rfl⟩

/-- C6 (amended): `get_tax_account_head` returns the configured account head
for the line's title, and raises if and only if either no row for that title
exists in the lookup table or the configured account of that row is empty
(the source's falsy check `if not tax_account`). -/
theorem c6_tax_account_head_amended (table : List TaxTableRow) (title : String) :
    (∀ acc, ((table.find? (fun r => decide (r.shopify_tax = title))).map
        (fun r => r.tax_account)) = some acc → acc ≠ "" →
      get_tax_account_head table title = Except.ok acc) ∧
    (get_tax_account_head table title = Except.error (Err.taxAccount title) ↔
      (((table.find? (fun r => decide (r.shopify_tax = title))).map
        (fun r => r.tax_account)) = none ∨
       ((table.find? (fun r => decide (r.shopify_tax = title))).map
        (fun r => r.tax_account)) = some "")) := by
  simp only [get_tax_account_head]
  rcases hf : (table.find? (fun r => decide (r.shopify_tax = title))).map
      (fun r => r.tax_account) with _ | acc
  · simp only [hf]
    constructor
    · intro acc h _
      exact absurd h (by simp)
    · simp
  · simp only [hf]
    constructor
    · intro acc' h hne
      have hacc : acc = acc' := Option.some.inj h
      subst hacc
      rw [if_neg hne]
    · by_cases he : acc = ""
      · subst he
        simp
      · dsimp only
        rw [if_neg he]
        simp [he]

theorem c6_witness :
    get_tax_account_head [⟨"GST", "GST Acct"⟩] "GST" = Except.ok "GST Acct" :=
  (c6_tax_account_head_amended [⟨"GST", "GST Acct"⟩] "GST").1 "GST Acct" rfl (by decide)

/-- C9: when `create_shopify_order` actually creates a Sales Order (no open
order for the external id existed), the discount amount set on it equals the
sum of the `flt`-coerced `amount` fields of all entries of the payload's
`discount_codes` list. -/
theorem c9_discount_amount (order : Order) (st : State) (so : SalesOrder)
    (st' : State) (hfresh : dbOpenSO st order.id = none)
    (hrun : create_shopify_order order st = (some so, st')) :
    so.discount_amount = (order.discount_codes.map (fun d => flt d.amount)).sum := by
  unfold create_shopify_order at hrun
  rw [show cstr (some order.id) = order.id from rfl, hfresh] at hrun
  dsimp only at hrun
  rcases hc : shopify_order_core order st with ⟨r, st''⟩
  rw [hc] at hrun
  cases r with
  | error e => simp at hrun
  | ok so' =>
    dsimp only at hrun
    rw [Prod.mk.injEq] at hrun
    obtain ⟨h1, _⟩ := hrun
    rw [Option.some.injEq] at h1
    subst h1
    exact (shopify_order_core_ok_inv order st so' st'' hfresh hc).2.2.2

theorem c9_witness :
    ∃ so st', create_shopify_order exOrderPaid exState0 = (some so, st') ∧
      so.discount_amount =
        (exOrderPaid.discount_codes.map (fun d => flt d.amount)).sum := by
  refine ⟨_, _, rfl, ?_⟩
  exact c9_discount_amount exOrderPaid exState0 _ _ rfl rfl

/-- C10: when a not-cancelled Sales Order for the external order id already
exists, `create_shopify_order` returns that document and the state is left
completely unchanged: no customer or item validation or creation happens and
no Success or Error log record is written on this reuse path. -/
theorem c10_reuse_existing_order (order : Order) (st : State) (d : SalesOrder)
    (h : dbOpenSO st order.id = some d) :
    create_shopify_order order st = (getDocSO st d.name, st) ∧
    (getDocSO st d.name).isSome = true := by
  constructor
  · unfold create_shopify_order
    rw [show cstr (some order.id) = order.id from rfl, h]
  · have hmem : d ∈ st.sales_orders := List.mem_of_find?_eq_some h
    rw [getDocSO, List.find?_isSome]
    exact ⟨d, hmem, by simp⟩

theorem c10_witness :
    create_shopify_order exOrderRefunded exStateSOOnly =
      (getDocSO exStateSOOnly "SO-A", exStateSOOnly) ∧
    (getDocSO exStateSOOnly "SO-A").isSome = true :=
  c10_reuse_existing_order exOrderRefunded exStateSOOnly exSOSubmitted rfl

/-- C5: `get_item_code` tries the variant-id mapping first, then the
product-id mapping (product id falling back to the line id), then the exact
name match on the title, returning the first (truthy) item code found; and
when none of the mappings can match, the item stays unresolved and
`create_shopify_order` aborts with a logged error and no Sales Order. -/
theorem c5_item_resolution_priority (items : List Item) (li : LineItem)
    (order : Order) (st : State) :
    (truthyStr (dbItemByVariant items li.variant_id) = true →
      get_item_code items li = dbItemByVariant items li.variant_id) ∧
    (truthyStr (dbItemByVariant items li.variant_id) = false →
      truthyStr (dbItemByProduct items (pyOr li.product_id li.id)) = true →
      get_item_code items li = dbItemByProduct items (pyOr li.product_id li.id)) ∧
    (truthyStr (dbItemByVariant items li.variant_id) = false →
      truthyStr (dbItemByProduct items (pyOr li.product_id li.id)) = false →
      get_item_code items li = dbItemByName items li.title) ∧
    (li ∈ order.line_items → li.variant_id = none → li.product_id = none →
      li.id = none → li.title = none → dbOpenSO st order.id = none →
      ((create_shopify_order order st).1 = none ∧
       ((create_shopify_order order st).2).sales_orders = st.sales_orders ∧
       ∃ e st', create_shopify_order order st =
         (none, pushLog st' (mkErrLog order e)))) := by
  refine ⟨?_, ?_, ?_, ?_⟩
  · intro h1
    unfold get_item_code
    simp [h1]
  · intro h1 h2
    unfold get_item_code
    simp [h1, h2]
  · intro h1 h2
    unfold get_item_code
    simp [h1, h2]
  · intro hmem hv hp hid ht hfresh
    obtain ⟨e, st', heq, hso, _⟩ :=
      shopify_order_core_err_of_unresolved order st li hfresh hmem hv hp hid ht
    have hwrap : create_shopify_order order st = (none, pushLog st' (mkErrLog order e)) := by
      unfold create_shopify_order
      rw [show cstr (some order.id) = order.id from rfl, hfresh]
      dsimp only
      rw [heq]
    refine ⟨?_, ?_, e, st', hwrap⟩
    · rw [hwrap]
    · rw [hwrap]
      have := pushLog_frame st' (mkErrLog order e)
      rw [this.2.2.2.2.1]
      exact hso

theorem c5_witness :
    get_item_code [exItem] exLineItem = dbItemByVariant [exItem] exLineItem.variant_id ∧
    ((create_shopify_order exOrderBadItem exState0).1 = none ∧
     ((create_shopify_order exOrderBadItem exState0).2).sales_orders =
       exState0.sales_orders ∧
     ∃ e st', create_shopify_order exOrderBadItem exState0 =
       (none, pushLog st' (mkErrLog exOrderBadItem e))) := by
  constructor
  · exact (c5_item_resolution_priority [exItem] exLineItem exOrderBadItem exState0).1
      (by decide)
  · exact (c5_item_resolution_priority [exItem] badLineItem exOrderBadItem exState0).2.2.2
      (by decide) rfl rfl rfl rfl rfl

/-- C3 counterexample: an order with financial status "refunded" whose Sales
Order exists (submitted, unbilled, no invoice yet), but whose settings have
the Sales Invoice sync toggle off: syncing changes nothing, so no Sales
Invoice and no return invoice are created, refuting the claim as stated. -/
theorem c3_counterexample :
    (dbOpenSO exStateSOOnly exOrderRefunded.id).isSome = true ∧
    cstr exOrderRefunded.financial_status = "refunded" ∧
    sync_sales_order exOrderRefunded exStateSOOnly = exStateSOOnly ∧
    exStateSOOnly.sales_invoices = [] := by
  refine ⟨rfl, rfl, ?_, rfl⟩
  rfl

/-- C3 (amended): for a refunded order whose Sales Order is submitted and
unbilled, when no Sales Invoice for the order id exists yet, invoice sync is
enabled and the framework calls do not raise, the invoice stage creates a
Sales Invoice and then creates and submits a return invoice referencing it. -/
theorem c3_refund_creates_return_amended (order : Order) (so : SalesOrder)
    (st : State) (href : cstr order.financial_status = "refunded")
    (hsi : dbSIByOrderId st.sales_invoices order.id = none)
    (hds : so.docstatus = 1) (hpb : so.per_billed = false)
    (htog : st.settings.sync_sales_invoice = true)
    (hins : st.oracle.si_insert_fails = false)
    (hpay : st.oracle.payment_entry_fails = false)
    (hret : st.oracle.sales_return_fails = false) :
    ∃ si rtn, ((create_shopify_invoice order so st).2).sales_invoices =
        st.sales_invoices ++ [si, rtn] ∧
      (create_shopify_invoice order so st).1 = some si.name ∧
      si.shopify_order_id = some order.id ∧ si.docstatus = 1 ∧
      si.is_return = false ∧ rtn.is_return = true ∧
      rtn.return_against = some si.name ∧ rtn.docstatus = 1 := by
  obtain ⟨si, pe, h1, h2, hsid, hsids, hsir, hpref, hped⟩ :=
    create_sales_invoice_ok order so st hsi hds hpb htog hins hpay
  have hpair : create_sales_invoice order so st =
      (Except.ok (some si.name),
        { st with sales_invoices := st.sales_invoices ++ [si]
                  payment_entries := st.payment_entries ++ [pe]
                  seq := st.seq + 1 + 1 }) := by
    rw [← h1, ← h2]
  obtain ⟨rtn, hreq, hrret, hragainst, hrds, hrid⟩ :=
    make_sales_return_ok si.name
      { st with sales_invoices := st.sales_invoices ++ [si]
                payment_entries := st.payment_entries ++ [pe]
                seq := st.seq + 1 + 1 } hret
  have hcore : shopify_invoice_core order so st =
      (Except.ok (some si.name),
        { st with sales_invoices := (st.sales_invoices ++ [si]) ++ [rtn]
                  payment_entries := st.payment_entries ++ [pe]
                  seq := st.seq + 1 + 1 + 1 }) := by
    unfold shopify_invoice_core
    rw [hpair]
    dsimp only
    rw [if_pos href, hreq]
  have hwrap : create_shopify_invoice order so st =
      (some si.name,
        { st with sales_invoices := (st.sales_invoices ++ [si]) ++ [rtn]
                  payment_entries := st.payment_entries ++ [pe]
                  seq := st.seq + 1 + 1 + 1 }) := by
    unfold create_shopify_invoice
    rw [if_neg (by simp [href]), hcore]
  refine ⟨si, rtn, ?_, ?_, hsid, hsids, hsir, hrret, hragainst, hrds⟩
  · rw [hwrap]
    simp
  · rw [hwrap]

theorem c3_witness :
    ∃ si rtn,
      ((create_shopify_invoice exOrderRefunded exSOSubmitted exStateSOReady).2).sales_invoices =
        exStateSOReady.sales_invoices ++ [si, rtn] ∧
      (create_shopify_invoice exOrderRefunded exSOSubmitted exStateSOReady).1 =
        some si.name ∧
      si.shopify_order_id = some exOrderRefunded.id ∧ si.docstatus = 1 ∧
      si.is_return = false ∧ rtn.is_return = true ∧
      rtn.return_against = some si.name ∧ rtn.docstatus = 1 :=
  c3_refund_creates_return_amended exOrderRefunded exSOSubmitted exStateSOReady
    rfl rfl rfl rfl rfl rfl rfl rfl

/-- C8: `cancel_shopify_order` processes Delivery Note, Sales Invoice, Sales
Order in exactly that order (first conjunct: the run is literally the three
`cancel_step`s composed in that order), cancelling the submitted document
keyed by the external order id for each; and a cancellation failure on one
document (here: the Sales Invoice raising) is logged individually and does
not prevent cancelling the remaining doctypes. -/
theorem c8_cancel_order_and_isolation (order : Order) (st : State)
    (dn : DeliveryNote) (si : SalesInvoice) (so : SalesOrder) :
    (cancel_shopify_order order st =
      cancel_step order (cancel_step order (cancel_step order st "Delivery Note")
        "Sales Invoice") "Sales Order") ∧
    (st.delivery_notes.find? (fun d => decide (d.docstatus = 1) &&
        decide (d.shopify_order_id = some (cstr (some order.id)))) = some dn →
     st.sales_invoices.find? (fun d => decide (d.docstatus = 1) &&
        decide (d.shopify_order_id = some (cstr (some order.id)))) = some si →
     st.sales_orders.find? (fun d => decide (d.docstatus = 1) &&
        decide (d.shopify_order_id = cstr (some order.id))) = some so →
     st.oracle.cancel_dn_fails = false → st.oracle.cancel_si_fails = true →
     st.oracle.cancel_so_fails = false →
     ((∀ x ∈ (cancel_shopify_order order st).delivery_notes,
        x.name = dn.name → x.docstatus = 2) ∧
      (cancel_shopify_order order st).sales_invoices = st.sales_invoices ∧
      (∀ x ∈ (cancel_shopify_order order st).sales_orders,
        x.name = so.name → x.docstatus = 2) ∧
      (cancel_shopify_order order st).logs =
        st.logs ++ [mkErrLog order (Err.framework "cancel")])) := by
  constructor
  · rfl
  · intro hdn hsi hso hcd hcs hcso
    have e1 : cancel_step order st "Delivery Note" =
        { st with delivery_notes := st.delivery_notes.map (fun x =>
            if x.name = dn.name then { x with docstatus := 2 } else x) } := by
      unfold cancel_step
      rw [if_pos rfl]
      simp only [hdn]
      rw [if_neg (by simp [hcd])]
    have e2 : cancel_step order
        { st with delivery_notes := st.delivery_notes.map (fun x =>
            if x.name = dn.name then { x with docstatus := 2 } else x) }
        "Sales Invoice" =
        pushLog { st with delivery_notes := st.delivery_notes.map (fun x =>
            if x.name = dn.name then { x with docstatus := 2 } else x) }
          (mkErrLog order (Err.framework "cancel")) := by
      unfold cancel_step
      rw [if_neg (by decide), if_pos rfl]
      dsimp only
      simp only [hsi]
      rw [if_pos hcs]
    have e3 : cancel_step order
        (pushLog { st with delivery_notes := st.delivery_notes.map (fun x =>
            if x.name = dn.name then { x with docstatus := 2 } else x) }
          (mkErrLog order (Err.framework "cancel"))) "Sales Order" =
        { st with
          delivery_notes := st.delivery_notes.map (fun x =>
            if x.name = dn.name then { x with docstatus := 2 } else x)
          sales_orders := st.sales_orders.map (fun x =>
            if x.name = so.name then { x with docstatus := 2 } else x)
          logs := st.logs ++ [mkErrLog order (Err.framework "cancel")] } := by
      unfold cancel_step pushLog
      rw [if_neg (by decide), if_neg (by decide), if_pos rfl]
      dsimp only
      simp only [hso]
      rw [if_neg (by simp [hcso])]
    have hfin : cancel_shopify_order order st =
        { st with
          delivery_notes := st.delivery_notes.map (fun x =>
            if x.name = dn.name then { x with docstatus := 2 } else x)
          sales_orders := st.sales_orders.map (fun x =>
            if x.name = so.name then { x with docstatus := 2 } else x)
          logs := st.logs ++ [mkErrLog order (Err.framework "cancel")] } := by
      rw [show cancel_shopify_order order st =
        cancel_step order (cancel_step order (cancel_step order st "Delivery Note")
          "Sales Invoice") "Sales Order" from rfl, e1, e2, e3]
    refine ⟨?_, ?_, ?_, ?_⟩
    · intro x hx hname
      rw [hfin] at hx
      dsimp only at hx
      rw [List.mem_map] at hx
      obtain ⟨y, _, hfy⟩ := hx
      by_cases hyn : y.name = dn.name
      · rw [← hfy]
        simp [hyn]
      · rw [← hfy] at hname
        simp [hyn] at hname
    · rw [hfin]
    · intro x hx hname
      rw [hfin] at hx
      dsimp only at hx
      rw [List.mem_map] at hx
      obtain ⟨y, _, hfy⟩ := hx
      by_cases hyn : y.name = so.name
      · rw [← hfy]
        simp [hyn]
      · rw [← hfy] at hname
        simp [hyn] at hname
    · rw [hfin]

theorem c8_witness :
    (cancel_shopify_order exOrderCancel exStateCancel).sales_invoices =
      exStateCancel.sales_invoices ∧
    (cancel_shopify_order exOrderCancel exStateCancel).logs =
      exStateCancel.logs ++ [mkErrLog exOrderCancel (Err.framework "cancel")] ∧
    ((cancel_shopify_order exOrderCancel exStateCancel).delivery_notes.map
      (fun d => d.docstatus)) = [2] ∧
    ((cancel_shopify_order exOrderCancel exStateCancel).sales_orders.map
      (fun d => d.docstatus)) = [2] := by
  obtain ⟨_, hsi2, _, hlg⟩ :=
    (c8_cancel_order_and_isolation exOrderCancel exStateCancel exDN exSI exSOCancel).2
      rfl rfl rfl rfl rfl rfl
  exact ⟨hsi2, hlg, rfl, rfl⟩

/-- C7: an exception raised inside the order, invoice or delivery stage is
caught by that stage's wrapper, which appends exactly one Error log record
carrying the exception and returns normally (the equations show the wrapper
evaluates to a value, so nothing propagates out of `sync_sales_order`);
stage cores never write logs themselves, and documents committed by earlier
stages survive: an invoice-stage failure leaves the Sales Order list intact,
a delivery-stage failure leaves Sales Orders and Sales Invoices intact, and
the whole sync run never changes the Sales Order list after the order stage
(last conjunct). -/
theorem c7_stage_errors_caught_logged (order : Order) (st : State)
    (so : SalesOrder) (e : Err) (st' : State) :
    ((dbOpenSO st order.id = none →
      shopify_order_core order st = (Except.error e, st') →
      (create_shopify_order order st = (none, pushLog st' (mkErrLog order e)) ∧
       st'.logs = st.logs))) ∧
    (((cstr order.financial_status = "paid" ∨
       cstr order.financial_status = "refunded") →
      shopify_invoice_core order so st = (Except.error e, st') →
      (create_shopify_invoice order so st = (none, pushLog st' (mkErrLog order e)) ∧
       st'.logs = st.logs ∧ st'.sales_orders = st.sales_orders))) ∧
    ((order.fulfillments ≠ [] →
      create_delivery_note order so st = (Except.error e, st') →
      (create_shopify_delivery order so st = (none, pushLog st' (mkErrLog order e)) ∧
       st'.logs = st.logs ∧ st'.sales_orders = st.sales_orders ∧
       st'.sales_invoices = st.sales_invoices))) ∧
    ((sync_sales_order order st).sales_orders =
      ((create_shopify_order order st).2).sales_orders) := by
  refine ⟨?_, ?_, ?_, ?_⟩
  · intro hfresh hc
    constructor
    · unfold create_shopify_order
      rw [show cstr (some order.id) = order.id from rfl, hfresh]
      dsimp only
      rw [hc]
    · have hf := shopify_order_core_frame order st
      rw [hc] at hf
      exact hf.2.2.2.2.2
  · intro hfs hc
    refine ⟨?_, ?_, ?_⟩
    · unfold create_shopify_invoice
      rw [if_neg (by rcases hfs with h | h <;> simp [h]), hc]
    · have hf := shopify_invoice_core_frame order so st
      rw [hc] at hf
      exact hf.2.2.2.2.2.2
    · have hf := shopify_invoice_core_frame order so st
      rw [hc] at hf
      exact hf.2.2.2.2.1
  · intro hne hc
    refine ⟨?_, ?_, ?_, ?_⟩
    · unfold create_shopify_delivery
      rcases hful : order.fulfillments with _ | ⟨f, fs⟩
      · exact absurd hful hne
      · rw [if_neg (by simp), hc]
    · have hf := create_delivery_note_frame order so st
      rw [hc] at hf
      exact hf.2.2.2.2.2.2.2
    · have hf := create_delivery_note_frame order so st
      rw [hc] at hf
      exact hf.2.2.2.2.1
    · have hf := create_delivery_note_frame order so st
      rw [hc] at hf
      exact hf.2.2.2.2.2.1
  · unfold sync_sales_order
    rcases hw : create_shopify_order order st with ⟨so?, st1⟩
    cases so? with
    | none => rfl
    | some so2 =>
      dsimp only
      rcases hi : create_shopify_invoice order so2 st1 with ⟨si?, st2⟩
      have fi := create_shopify_invoice_frame order so2 st1
      rw [hi] at fi
      dsimp only
      rcases hd : create_shopify_delivery order so2 st2 with ⟨dns?, st3⟩
      have fd := create_shopify_delivery_frame order so2 st2
      rw [hd] at fd
      exact fd.2.2.2.2.1.trans fi.2.2.2.2.1

theorem c7_witness :
    create_shopify_invoice exOrderPaid exSOPaid exStateSIFail =
      (none, pushLog exStateSIFail (mkErrLog exOrderPaid (Err.framework "si_insert"))) ∧
    exStateSIFail.logs = exStateSIFail.logs ∧
    exStateSIFail.sales_orders = exStateSIFail.sales_orders :=
  (c7_stage_errors_caught_logged exOrderPaid exStateSIFail exSOPaid
    (Err.framework "si_insert") exStateSIFail).2.1 (Or.inl rfl) rfl

/-- C4 counterexample: a paid order with no fulfillments, synced against
settings whose Sales Invoice sync toggle is off: the Sales Order is created
but no Sales Invoice and no Payment Entry, refuting the claim as stated. -/
theorem c4_counterexample :
    cstr exOrderPaid.financial_status = "paid" ∧
    exOrderPaid.fulfillments = [] ∧
    (sync_sales_order exOrderPaid exStateNoSI).sales_orders.length = 1 ∧
    (sync_sales_order exOrderPaid exStateNoSI).sales_invoices = [] ∧
    (sync_sales_order exOrderPaid exStateNoSI).payment_entries = [] := by
  refine ⟨rfl, rfl, ?_, ?_, ?_⟩ <;> rfl

/-- C4 (amended): for a paid order with an empty fulfillments list, starting
from a store with no documents for the external id, with invoice sync
enabled, all line items resolvable, taxes resolvable, and no framework call
raising, `sync_sales_order` creates exactly one Sales Order, one Sales
Invoice and one Payment Entry, and no Delivery Note. -/
theorem c4_paid_no_fulfillments_amended (order : Order) (st : State)
    (ts : List ChargeLine)
    (hpaid : cstr order.financial_status = "paid")
    (hful : order.fulfillments = [])
    (hso : dbOpenSO st order.id = none)
    (hsi : dbSIByOrderId st.sales_invoices order.id = none)
    (htog : st.settings.sync_sales_invoice = true)
    (hoc : st.oracle.create_customer_fails = false)
    (hmi : st.oracle.make_item_fails = false)
    (hsv : st.oracle.so_save_fails = false)
    (hins : st.oracle.si_insert_fails = false)
    (hpay : st.oracle.payment_entry_fails = false)
    (hres : ∀ li ∈ order.line_items, truthyStr (get_item_code st.items li) = true)
    (htax : get_order_taxes order st.settings = Except.ok ts) :
    (sync_sales_order order st).sales_orders.length = st.sales_orders.length + 1 ∧
    (sync_sales_order order st).sales_invoices.length = st.sales_invoices.length + 1 ∧
    (sync_sales_order order st).payment_entries.length = st.payment_entries.length + 1 ∧
    (sync_sales_order order st).delivery_notes = st.delivery_notes := by
  obtain ⟨so, stc, hcore, hsoeq, hid, hds, hpb, hdisc, hsieq, hdneq, hpeeq,
    hlgeq, hseteq, horeq⟩ := shopify_order_core_ok order st ts hso htax hres hoc hmi hsv
  have hwrap : create_shopify_order order st =
      (some so, pushLog stc (mkSuccessLog order)) := by
    unfold create_shopify_order
    rw [show cstr (some order.id) = order.id from rfl, hso]
    dsimp only
    rw [hcore]
  have hsi1 : dbSIByOrderId (pushLog stc (mkSuccessLog order)).sales_invoices
      order.id = none := by
    show dbSIByOrderId stc.sales_invoices order.id = none
    rw [hsieq]
    exact hsi
  obtain ⟨si, pe, hi1, hi2, hsid, hsids, hsir, hpref, hped⟩ :=
    create_sales_invoice_ok order so (pushLog stc (mkSuccessLog order)) hsi1 hds hpb
      (by show stc.settings.sync_sales_invoice = true; rw [hseteq]; exact htog)
      (by show stc.oracle.si_insert_fails = false; rw [horeq]; exact hins)
      (by show stc.oracle.payment_entry_fails = false; rw [horeq]; exact hpay)
  have hpair : create_sales_invoice order so (pushLog stc (mkSuccessLog order)) =
      (Except.ok (some si.name),
        { pushLog stc (mkSuccessLog order) with
          sales_invoices := (pushLog stc (mkSuccessLog order)).sales_invoices ++ [si]
          payment_entries := (pushLog stc (mkSuccessLog order)).payment_entries ++ [pe]
          seq := (pushLog stc (mkSuccessLog order)).seq + 1 + 1 }) := by
    rw [← hi1, ← hi2]
  have hcorei : shopify_invoice_core order so (pushLog stc (mkSuccessLog order)) =
      (Except.ok (some si.name),
        { pushLog stc (mkSuccessLog order) with
          sales_invoices := (pushLog stc (mkSuccessLog order)).sales_invoices ++ [si]
          payment_entries := (pushLog stc (mkSuccessLog order)).payment_entries ++ [pe]
          seq := (pushLog stc (mkSuccessLog order)).seq + 1 + 1 }) := by
    unfold shopify_invoice_core
    rw [hpair]
    dsimp only
    rw [if_neg (by rw [hpaid]; decide)]
  have hwrapi : create_shopify_invoice order so (pushLog stc (mkSuccessLog order)) =
      (some si.name,
        { pushLog stc (mkSuccessLog order) with
          sales_invoices := (pushLog stc (mkSuccessLog order)).sales_invoices ++ [si]
          payment_entries := (pushLog stc (mkSuccessLog order)).payment_entries ++ [pe]
          seq := (pushLog stc (mkSuccessLog order)).seq + 1 + 1 }) := by
    unfold create_shopify_invoice
    rw [if_neg (by simp [hpaid]), hcorei]
  have hdel : create_shopify_delivery order so
      { pushLog stc (mkSuccessLog order) with
        sales_invoices := (pushLog stc (mkSuccessLog order)).sales_invoices ++ [si]
        payment_entries := (pushLog stc (mkSuccessLog order)).payment_entries ++ [pe]
        seq := (pushLog stc (mkSuccessLog order)).seq + 1 + 1 } =
      (none,
        { pushLog stc (mkSuccessLog order) with
          sales_invoices := (pushLog stc (mkSuccessLog order)).sales_invoices ++ [si]
          payment_entries := (pushLog stc (mkSuccessLog order)).payment_entries ++ [pe]
          seq := (pushLog stc (mkSuccessLog order)).seq + 1 + 1 }) := by
    unfold create_shopify_delivery
    rw [if_pos (by rw [hful]; rfl)]
  have hsync : sync_sales_order order st =
      { pushLog stc (mkSuccessLog order) with
        sales_invoices := (pushLog stc (mkSuccessLog order)).sales_invoices ++ [si]
        payment_entries := (pushLog stc (mkSuccessLog order)).payment_entries ++ [pe]
        seq := (pushLog stc (mkSuccessLog order)).seq + 1 + 1 } := by
    unfold sync_sales_order
    rw [hwrap]
    dsimp only
    rw [hwrapi]
    dsimp only
    rw [hdel]
  rw [hsync]
  refine ⟨?_, ?_, ?_, ?_⟩
  · show stc.sales_orders.length = st.sales_orders.length + 1
    rw [hsoeq]
    simp
  · show (stc.sales_invoices ++ [si]).length = st.sales_invoices.length + 1
    rw [hsieq]
    simp
  · show (stc.payment_entries ++ [pe]).length = st.payment_entries.length + 1
    rw [hpeeq]
    simp
  · show stc.delivery_notes = st.delivery_notes
    exact hdneq

theorem c4_witness :
    (sync_sales_order exOrderPaid exState0).sales_orders.length =
      exState0.sales_orders.length + 1 ∧
    (sync_sales_order exOrderPaid exState0).sales_invoices.length =
      exState0.sales_invoices.length + 1 ∧
    (sync_sales_order exOrderPaid exState0).payment_entries.length =
      exState0.payment_entries.length + 1 ∧
    (sync_sales_order exOrderPaid exState0).delivery_notes =
      exState0.delivery_notes :=
  c4_paid_no_fulfillments_amended exOrderPaid exState0 [] rfl rfl rfl rfl rfl rfl
    rfl rfl rfl rfl (by decide) rfl

/-- C2: running `sync_sales_order` a second time with the same payload
creates no additional documents: every creation site is guarded by an
existence check on the external key, so from any store satisfying the
at-most-one-per-key invariants — at most one not-cancelled Sales Order per
external order id, at most one Sales Invoice per external order id, at most
one Delivery Note per fulfillment id — two consecutive runs (indeed each
single run) leave the invariants intact, for every oracle of framework
failures. -/
theorem c2_sync_twice_at_most_one_per_key (order : Order) (st : State)
    (oid fid : String)
    (h1 : ∀ k, soCount st k ≤ 1) (h2 : ∀ k, siCount st k ≤ 1)
    (h3 : ∀ k, dnCount st k ≤ 1) :
    soCount (sync_sales_order order (sync_sales_order order st)) oid ≤ 1 ∧
    siCount (sync_sales_order order (sync_sales_order order st)) oid ≤ 1 ∧
    dnCount (sync_sales_order order (sync_sales_order order st)) fid ≤ 1 := by
  obtain ⟨a1, a2, a3⟩ := sync_preserves_unique order st h1 h2 h3
  obtain ⟨b1, b2, b3⟩ := sync_preserves_unique order (sync_sales_order order st) a1 a2 a3
  exact ⟨b1 oid, b2 oid, b3 fid⟩

theorem c2_witness :
    soCount (sync_sales_order exOrderFulfilled
      (sync_sales_order exOrderFulfilled exState0)) "1005" ≤ 1 ∧
    siCount (sync_sales_order exOrderFulfilled
      (sync_sales_order exOrderFulfilled exState0)) "1005" ≤ 1 ∧
    dnCount (sync_sales_order exOrderFulfilled
      (sync_sales_order exOrderFulfilled exState0)) "f1" ≤ 1 :=
  c2_sync_twice_at_most_one_per_key exOrderFulfilled exState0 "1005" "f1"
    (fun k => by simp [soCount, exState0])
    (fun k => by simp [siCount, exState0])
    (fun k => by simp [dnCount, exState0])

/-- A concrete check, beyond the invariant: on a fulfilled, paid order the
second sync run is a no-op on the whole store, logs included. -/
theorem sync_twice_concrete_noop :
    sync_sales_order exOrderFulfilled (sync_sales_order exOrderFulfilled exState0) =
      sync_sales_order exOrderFulfilled exState0 := by
  rfl

end Shopify
